import Mathlib

/-!
# Verification of the jellyfin-delete-sync core

Shallow embedding of `src/python/jellyfin-delete-sync/jellyfin-delete-sync.py`
(version 3.0.0, the converged implementation), together with the
`clear_status` extension of `build_provider_map` found in
`src/python/jellyfin-delete-sync/sonarr.py` and the schema of `db.py`.

Conventions of the embedding:
* HTTP interactions with the two catalog services (Sonarr / Radarr) are
  modelled through a gateway interface `Gw σ`.  A call returns
  `Except Unit (HttpResp α)`: `.error ()` is a raised transport exception
  (`requests` raising), `.ok r` is a completed HTTP exchange with status
  code `r.status` and decoded JSON body `r.body`.
* Python truthiness of optional strings (`if tvdb_id:`, `x or y`) is made
  explicit via `truthy` / `pyOr`; provider identifiers are modelled as
  strings throughout (the sqlite column is TEXT and the map key is
  `str(tvdb)`).
* sqlite transactionality: `build_provider_map` runs all its statements on
  one connection and commits once; closing without commit rolls back, so
  the model stages all writes on a draft `Db` and returns the original
  `Db` on every path that reaches `conn.close()` before `conn.commit()`.
* Every gateway call made by the webhook handler is recorded in a trace
  (`List Call`) so that "no downstream mutation was issued" is a statement
  about the trace.
-/

/-- An HTTP exchange that completed: status code plus decoded body. -/
structure HttpResp (α : Type) where
  status : Nat
  body : α
deriving DecidableEq, Repr

/-- Result of a `requests` call: `.error ()` models a raised exception
(transport failure), `.ok` a completed response. -/
abbrev RqResult (α : Type) := Except Unit (HttpResp α)

/-- View of `Except` as a sum, to inherit decidable equality. -/
def exceptToSum : Except ε α → ε ⊕ α
  | .error e => .inl e
  | .ok a => .inr a

instance [DecidableEq ε] [DecidableEq α] : DecidableEq (Except ε α) :=
  fun a b =>
    decidable_of_iff (exceptToSum a = exceptToSum b)
      (by cases a <;> cases b <;> simp [exceptToSum])

/-- Python truthiness for an optional string: `None` and `''` are falsy. -/
def truthy : Option String → Option String
  | some s => if s = "" then none else some s
  | none => none

/-- Python `a or b` on optional strings (falls through on falsy `a`). -/
def pyOr (a b : Option String) : Option String :=
  match truthy a with
  | some s => some s
  | none => b

/-- Python `str.lower()` on the strings the script compares
(titles and the series status), in a kernel-computable form. -/
def strLower (s : String) : String := ⟨s.data.map Char.toLower⟩

/-- A season entry inside a Sonarr series JSON object
(`ser['seasons']`: `seasonNumber`, `monitored`). -/
structure SeasonInfo where
  seasonNumber : Int
  monitored : Bool
deriving DecidableEq, Repr

/-- A Sonarr series JSON object, with the fields the script reads:
`id`, `title`, `status`, `seasons`, `tvdbId`, `imdbId`. -/
structure Series where
  id : Nat
  title : String
  status : String
  seasons : List SeasonInfo
  tvdbId : Option String
  imdbId : Option String
deriving DecidableEq, Repr

/-- A Sonarr episode JSON object: `id`, `seriesId`, `seasonNumber`,
`episodeNumber`, `monitored`, `hasFile`, `episodeFileId`, `tvdbId`,
`imdbId`. -/
structure Episode where
  id : Nat
  seriesId : Nat
  seasonNumber : Int
  episodeNumber : Int
  monitored : Bool
  hasFile : Bool
  episodeFileId : Nat
  tvdbId : Option String
  imdbId : Option String
deriving DecidableEq, Repr

/-- A Sonarr episode-file JSON object: `id`, `seriesId`, `seasonNumber`. -/
structure EpisodeFile where
  id : Nat
  seriesId : Nat
  seasonNumber : Int
deriving DecidableEq, Repr

/-- A Radarr movie JSON object: `id`, `title`, `tmdbId`, `imdbId`. -/
structure Movie where
  id : Nat
  title : String
  tmdbId : Option String
  imdbId : Option String
deriving DecidableEq, Repr

/-- One recorded gateway call of the webhook handler, with the response
it received.  Mutation calls are `delMovie`, `delFile`, `delSeries`,
`putSeries`, `putEpisode`. -/
inductive Call where
  | getMovie (tmdb : String) (r : RqResult (List Movie))
  | delMovie (id : Nat) (r : RqResult Unit)
  | getSeriesById (id : Nat) (r : RqResult Series)
  | getSeriesByTvdb (tvdb : String) (r : RqResult (List Series))
  | getSeriesList (r : RqResult (List Series))
  | getFiles (seriesId : Nat) (r : RqResult (List EpisodeFile))
  | delFile (id : Nat) (r : RqResult Unit)
  | delSeries (id : Nat) (r : RqResult Unit)
  | putSeries (id : Nat) (body : Series) (r : RqResult Unit)
  | getEpsBySeries (seriesId : Nat) (r : RqResult (List Episode))
  | getEpsBySeason (seriesId : Nat) (season : Option Int) (r : RqResult (List Episode))
  | putEpisode (id : Nat) (body : Episode) (r : RqResult Unit)
deriving DecidableEq

/-- Is a call one of the downstream mutations (delete / unmonitor /
update)? -/
def Call.isMutation : Call → Bool
  | .delMovie _ _ => true
  | .delFile _ _ => true
  | .delSeries _ _ => true
  | .putSeries _ _ _ => true
  | .putEpisode _ _ _ => true
  | _ => false

/-- Is a call a full series removal (`DELETE /api/v3/series/{id}`)? -/
def Call.isDelSeries : Call → Bool
  | .delSeries _ _ => true
  | _ => false

/-- Is a call a series update (`PUT /api/v3/series/{id}`, the call used to
unmonitor seasons)? -/
def Call.isPutSeries : Call → Bool
  | .putSeries _ _ _ => true
  | _ => false

/-- The gateway interface: every HTTP call the script issues, as a
state-passing function over an environment `σ` (the downstream catalogs'
state; `σ = Unit` for a fixed response table). -/
structure Gw (σ : Type) where
  getMovieByTmdb : String → σ → RqResult (List Movie) × σ
  delMovie : Nat → σ → RqResult Unit × σ
  getSeriesById : Nat → σ → RqResult Series × σ
  getSeriesByTvdb : String → σ → RqResult (List Series) × σ
  getSeriesList : σ → RqResult (List Series) × σ
  getFiles : Nat → σ → RqResult (List EpisodeFile) × σ
  delFile : Nat → σ → RqResult Unit × σ
  delSeries : Nat → σ → RqResult Unit × σ
  putSeries : Nat → Series → σ → RqResult Unit × σ
  getEpsBySeries : Nat → σ → RqResult (List Episode) × σ
  getEpsBySeason : Nat → Option Int → σ → RqResult (List Episode) × σ
  putEpisode : Nat → Episode → σ → RqResult Unit × σ

/-- Environment state plus the trace of calls issued so far. -/
structure St (σ : Type) where
  env : σ
  tr : List Call

def callGetMovie (g : Gw σ) (q : String) (st : St σ) :
    RqResult (List Movie) × St σ :=
  let (r, e) := g.getMovieByTmdb q st.env
  (r, ⟨e, st.tr ++ [Call.getMovie q r]⟩)

def callDelMovie (g : Gw σ) (i : Nat) (st : St σ) : RqResult Unit × St σ :=
  let (r, e) := g.delMovie i st.env
  (r, ⟨e, st.tr ++ [Call.delMovie i r]⟩)

def callGetSeriesById (g : Gw σ) (i : Nat) (st : St σ) :
    RqResult Series × St σ :=
  let (r, e) := g.getSeriesById i st.env
  (r, ⟨e, st.tr ++ [Call.getSeriesById i r]⟩)

def callGetSeriesByTvdb (g : Gw σ) (q : String) (st : St σ) :
    RqResult (List Series) × St σ :=
  let (r, e) := g.getSeriesByTvdb q st.env
  (r, ⟨e, st.tr ++ [Call.getSeriesByTvdb q r]⟩)

def callGetSeriesList (g : Gw σ) (st : St σ) :
    RqResult (List Series) × St σ :=
  let (r, e) := g.getSeriesList st.env
  (r, ⟨e, st.tr ++ [Call.getSeriesList r]⟩)

def callGetFiles (g : Gw σ) (i : Nat) (st : St σ) :
    RqResult (List EpisodeFile) × St σ :=
  let (r, e) := g.getFiles i st.env
  (r, ⟨e, st.tr ++ [Call.getFiles i r]⟩)

def callDelFile (g : Gw σ) (i : Nat) (st : St σ) : RqResult Unit × St σ :=
  let (r, e) := g.delFile i st.env
  (r, ⟨e, st.tr ++ [Call.delFile i r]⟩)

def callDelSeries (g : Gw σ) (i : Nat) (st : St σ) : RqResult Unit × St σ :=
  let (r, e) := g.delSeries i st.env
  (r, ⟨e, st.tr ++ [Call.delSeries i r]⟩)

def callPutSeries (g : Gw σ) (i : Nat) (b : Series) (st : St σ) :
    RqResult Unit × St σ :=
  let (r, e) := g.putSeries i b st.env
  (r, ⟨e, st.tr ++ [Call.putSeries i b r]⟩)

def callGetEpsBySeries (g : Gw σ) (i : Nat) (st : St σ) :
    RqResult (List Episode) × St σ :=
  let (r, e) := g.getEpsBySeries i st.env
  (r, ⟨e, st.tr ++ [Call.getEpsBySeries i r]⟩)

def callGetEpsBySeason (g : Gw σ) (i : Nat) (sn : Option Int) (st : St σ) :
    RqResult (List Episode) × St σ :=
  let (r, e) := g.getEpsBySeason i sn st.env
  (r, ⟨e, st.tr ++ [Call.getEpsBySeason i sn r]⟩)

def callPutEpisode (g : Gw σ) (i : Nat) (b : Episode) (st : St σ) :
    RqResult Unit × St σ :=
  let (r, e) := g.putEpisode i b st.env
  (r, ⟨e, st.tr ++ [Call.putEpisode i b r]⟩)

/-! ## The webhook handler (`jellyfin_webhook`) and its helpers -/

/-- `find_series_via_map`: look the episode TVDB id up in the local
`episode_map` table, then fetch the series by internal id.  Any exception
or non-200 yields `None`. -/
def findSeriesViaMap (g : Gw σ) (db : List (String × Nat)) (tvdb : String)
    (st : St σ) : Option Series × St σ :=
  match (db.find? (fun p => p.1 = tvdb)).map (fun p => p.2) with
  | none => (none, st)
  | some sid =>
    let (r, st1) := callGetSeriesById g sid st
    match r with
    | .error _ => (none, st1)
    | .ok resp => if resp.status = 200 then (some resp.body, st1) else (none, st1)

/-- The title half of `find_series`: `if title:` then fetch the full
series list and return the first case-insensitive title match. -/
def findSeriesByTitle (g : Gw σ) (title : String) (st : St σ) :
    Option Series × St σ :=
  if title = "" then (none, st)
  else
    let (r, st1) := callGetSeriesList g st
    match r with
    | .error _ => (none, st1)
    | .ok resp =>
      if resp.status = 200 then
        (resp.body.find? (fun s => strLower s.title = strLower title), st1)
      else (none, st1)

/-- `find_series(tvdb_id, title)`: try the series-level TVDB id first
(non-200 or empty falls through to the title scan; a raised exception
returns `None` without trying the title). -/
def findSeries (g : Gw σ) (tvdb : Option String) (title : String)
    (st : St σ) : Option Series × St σ :=
  match truthy tvdb with
  | some t =>
    let (r, st1) := callGetSeriesByTvdb g t st
    match r with
    | .error _ => (none, st1)
    | .ok resp =>
      if resp.status = 200 ∧ resp.body ≠ [] then (resp.body.head?, st1)
      else findSeriesByTitle g title st1
  | none => findSeriesByTitle g title st

/-- The episode-map fast path of the resolution step (`if item_type ==
'Episode' and tvdb_id: series = find_series_via_map(tvdb_id)`). -/
def mapFirst (g : Gw σ) (db : List (String × Nat)) (itemType : String)
    (tvdbId : Option String) (st : St σ) : Option Series × St σ :=
  if itemType = "Episode" then
    match truthy tvdbId with
    | some t => findSeriesViaMap g db t st
    | none => (none, st)
  else (none, st)

/-- Lines 520-527 of the handler: Episode notifications with a TVDB id
try the episode map first; then `find_series` with the series-level TVDB
id (Series kind only) and the search title. -/
def resolveSeries (g : Gw σ) (db : List (String × Nat)) (itemType : String)
    (tvdbId : Option String) (searchTitle : String) (st : St σ) :
    Option Series × St σ :=
  match mapFirst g db itemType tvdbId st with
  | (some s, st1) => (some s, st1)
  | (none, st1) =>
    findSeries g (if itemType = "Series" then tvdbId else none) searchTitle st1

/-- `is_series_fully_downloaded`: fetch the series' episodes; `False` on
exception or non-200; otherwise `True` iff no monitored episode lacks a
file. -/
def isSeriesFullyDownloaded (g : Gw σ) (sid : Nat) (st : St σ) :
    Bool × St σ :=
  let (r, st1) := callGetEpsBySeries g sid st
  match r with
  | .error _ => (false, st1)
  | .ok resp =>
    if resp.status ≠ 200 then (false, st1)
    else (resp.body.all (fun ep => !ep.monitored || ep.hasFile), st1)

/-- `is_season_fully_downloaded`: same check restricted to one season's
episode list. -/
def isSeasonFullyDownloaded (g : Gw σ) (sid : Nat) (sn : Option Int)
    (st : St σ) : Bool × St σ :=
  let (r, st1) := callGetEpsBySeason g sid sn st
  match r with
  | .error _ => (false, st1)
  | .ok resp =>
    if resp.status ≠ 200 then (false, st1)
    else (resp.body.all (fun ep => !ep.monitored || ep.hasFile), st1)

/-- The episode-file deletion loop (`for file in files_resp.json():
requests.delete(...)`).  Returns `true` when a delete raised, which
aborts the rest of the TV branch. -/
def deleteFiles (g : Gw σ) : List EpisodeFile → St σ → St σ × Bool
  | [], st => (st, false)
  | f :: rest, st =>
    let (r, st1) := callDelFile g f.id st
    match r with
    | .error _ => (st1, true)
    | .ok _ => deleteFiles g rest st1

/-- The series object with every entry of season `sn` unmonitored, as the
handler builds it in place before `PUT /api/v3/series/{id}`. -/
def flipSeason (s : Series) (sn : Option Int) : Series :=
  { s with seasons := s.seasons.map (fun se =>
      if some se.seasonNumber = sn ∧ se.monitored then { se with monitored := false }
      else se) }

/-- Did the in-place season loop change anything (`updated`)? -/
def seasonUpdated (s : Series) (sn : Option Int) : Bool :=
  s.seasons.any (fun se => some se.seasonNumber = sn && se.monitored)

/-- The season-unmonitor block: flip the season's `monitored` flags and
`PUT` the whole series back iff something changed.  Returns `true` when
the `PUT` raised. -/
def unmonitorSeason (g : Gw σ) (s : Series) (sn : Option Int) (st : St σ) :
    St σ × Bool :=
  if seasonUpdated s sn then
    let (r, st1) := callPutSeries g s.id (flipSeason s sn) st
    match r with
    | .error _ => (st1, true)
    | .ok _ => (st1, false)
  else (st, false)

/-- The Movie branch of the handler (after the TMDB-id presence check):
look the movie up by TMDB id, delete it with its files.  Every failure is
caught and the handler falls through to `'OK', 200`. -/
def movieBranch (g : Gw σ) (tm : String) (st : St σ) :
    HttpResp String × St σ :=
  let (r, st1) := callGetMovie g tm st
  match r with
  | .error _ => (⟨200, "OK"⟩, st1)
  | .ok resp =>
    if resp.status ≠ 200 then (⟨200, "Not in Radarr"⟩, st1)
    else
      match resp.body with
      | [] => (⟨200, "Not in Radarr"⟩, st1)
      | m :: _ =>
        let (_, st2) := callDelMovie g m.id st1
        (⟨200, "OK"⟩, st2)

/-- Series-kind processing: delete all episode files, then apply
`SERIES_DELETION_MODE` (1 safe, 2 aggressive, 3 smart: remove the series
iff its status is `ended` and `is_series_fully_downloaded`). -/
def seriesKind (cfg : Nat) (g : Gw σ) (s : Series) (st : St σ) :
    HttpResp String × St σ :=
  let (fr, st1) := callGetFiles g s.id st
  match fr with
  | .error _ => (⟨200, "OK"⟩, st1)
  | .ok fresp =>
    let fs := if fresp.status = 200 then fresp.body else []
    match deleteFiles g fs st1 with
    | (st2, true) => (⟨200, "OK"⟩, st2)
    | (st2, false) =>
      if cfg = 1 then (⟨200, "OK"⟩, st2)
      else if cfg = 2 then
        let (_, st3) := callDelSeries g s.id st2
        (⟨200, "OK"⟩, st3)
      else if cfg = 3 then
        let isEnded := strLower s.status = "ended"
        let (fully, st3) := isSeriesFullyDownloaded g s.id st2
        if isEnded ∧ fully then
          let (_, st4) := callDelSeries g s.id st3
          (⟨200, "OK"⟩, st4)
        else (⟨200, "OK"⟩, st3)
      else (⟨200, "OK"⟩, st2)

/-- Season-kind processing: delete the season's episode files, then apply
`SEASON_DELETION_MODE` (1 safe, 2 aggressive: unmonitor, 3 smart:
unmonitor iff `is_season_fully_downloaded`). -/
def seasonKind (cfg : Nat) (g : Gw σ) (s : Series) (sn : Option Int)
    (st : St σ) : HttpResp String × St σ :=
  let (fr, st1) := callGetFiles g s.id st
  match fr with
  | .error _ => (⟨200, "OK"⟩, st1)
  | .ok fresp =>
    let fs := if fresp.status = 200 then
        fresp.body.filter (fun f => some f.seasonNumber = sn)
      else []
    match deleteFiles g fs st1 with
    | (st2, true) => (⟨200, "OK"⟩, st2)
    | (st2, false) =>
      if cfg = 1 then (⟨200, "OK"⟩, st2)
      else if cfg = 2 then
        let (st3, _) := unmonitorSeason g s sn st2
        (⟨200, "OK"⟩, st3)
      else if cfg = 3 then
        let (fully, st3) := isSeasonFullyDownloaded g s.id sn st2
        if fully then
          let (st4, _) := unmonitorSeason g s sn st3
          (⟨200, "OK"⟩, st4)
        else (⟨200, "OK"⟩, st3)
      else (⟨200, "OK"⟩, st2)

/-- Tail of the Episode branch: delete the episode's file if it has one.
The delete's outcome (even a raised exception) still ends in `'OK', 200`. -/
def epDelFile (g : Gw σ) (target : Episode) (st : St σ) :
    HttpResp String × St σ :=
  if target.hasFile then
    let (_, st1) := callDelFile g target.episodeFileId st
    (⟨200, "OK"⟩, st1)
  else (⟨200, "OK"⟩, st)

/-- Episode-kind processing: fetch the season's episode list (a non-200
status here is the one path answered with `'API error', 500`; a raised
exception instead is caught and answered 200), find the episode by
number, unmonitor it if monitored, delete its file if present. -/
def episodeKind (g : Gw σ) (s : Series) (sn en : Option Int) (st : St σ) :
    HttpResp String × St σ :=
  let (r, st1) := callGetEpsBySeason g s.id sn st
  match r with
  | .error _ => (⟨200, "OK"⟩, st1)
  | .ok resp =>
    if resp.status ≠ 200 then (⟨500, "API error"⟩, st1)
    else
      match resp.body.find? (fun e => some e.episodeNumber = en) with
      | none => (⟨200, "Not found"⟩, st1)
      | some target =>
        if target.monitored then
          let (pr, st2) := callPutEpisode g target.id { target with monitored := false } st1
          match pr with
          | .error _ => (⟨200, "OK"⟩, st2)
          | .ok _ => epDelFile g target st2
        else epDelFile g target st1

/-- The `Item` object of an `ItemDeleted` notification, with the fields
the handler reads (each may be absent). -/
structure Item where
  itemType : Option String
  name : Option String
  seriesName : Option String
  seasonNumber : Option Int
  episodeNumber : Option Int
  tvdb : Option String
  tmdb : Option String
  provTvdbLegacy : Option String
  provTmdbLegacy : Option String
deriving DecidableEq, Repr

/-- `item.get('Name', 'Unknown')`. -/
def itemName (it : Item) : String := it.name.getD "Unknown"

/-- `item.get('SeriesName') or ''`. -/
def itemSeriesName (it : Item) : String := (truthy it.seriesName).getD ""

/-- `provider_ids.get('Tvdb') or item.get('Provider_tvdb')`. -/
def itemTvdbId (it : Item) : Option String := pyOr it.tvdb it.provTvdbLegacy

/-- `provider_ids.get('Tmdb') or item.get('Provider_tmdb')`. -/
def itemTmdbId (it : Item) : Option String := pyOr it.tmdb it.provTmdbLegacy

/-- `series_name if series_name else name`. -/
def itemSearchTitle (it : Item) : String :=
  if itemSeriesName it ≠ "" then itemSeriesName it else itemName it

/-- Outcome of `json.loads` on the repaired body: a falsy value (`{}`,
`[]`, `0`, `null`, ...), a truthy non-dict (whose `.get` raises, caught by
the outer handler), or a dict with the two recognized top-level fields. -/
inductive PyBody where
  | falsy
  | truthyNonDict
  | obj (notificationType : Option String) (item : Option Item)
deriving DecidableEq

/-- A request to the `/jellyfin` endpoint, after `json_repair`:
`bodyBlank` is `not raw_body.strip()`, `decoded` is the strict decode of
the repaired body (`none` = `json.JSONDecodeError`). -/
structure WebhookInput where
  bodyBlank : Bool
  decoded : Option PyBody
deriving DecidableEq

def emptyItem : Item := ⟨none, none, none, none, none, none, none, none, none⟩

/-- `SERIES_DELETION_MODE` and `SEASON_DELETION_MODE` (validated to be 1,
2 or 3 at startup). -/
structure Cfg where
  seriesMode : Nat
  seasonMode : Nat
deriving DecidableEq

/-- The `/jellyfin` route handler.  Returns the flask response and the
final environment/trace.  Paths that hit the big `except` blocks fall
through to `'OK', 200` (outer unhandled errors: `'OK (error handled)',
200`); the only 5xx literal in the source is the Episode branch's
`'API error', 500`. -/
def jellyfinWebhook (cfg : Cfg) (g : Gw σ) (db : List (String × Nat))
    (inp : WebhookInput) (env0 : σ) : HttpResp String × St σ :=
  let st0 : St σ := ⟨env0, []⟩
  if inp.bodyBlank then (⟨400, "No data"⟩, st0)
  else
    match inp.decoded with
    | none => (⟨200, "OK (ignored)"⟩, st0)
    | some .falsy => (⟨200, "OK (ignored)"⟩, st0)
    | some .truthyNonDict => (⟨200, "OK (error handled)"⟩, st0)
    | some (.obj nt item?) =>
      if nt ≠ some "ItemDeleted" then (⟨200, "OK (ignored)"⟩, st0)
      else
        let item := item?.getD emptyItem
        match truthy item.itemType with
        | none => (⟨200, "OK (invalid deletion payload)"⟩, st0)
        | some ty =>
          if ty = "Movie" then
            match truthy (itemTmdbId item) with
            | none => (⟨400, "No TMDB ID"⟩, st0)
            | some tm => movieBranch g tm st0
          else if ty = "Series" ∨ ty = "Season" ∨ ty = "Episode" then
            let (sOpt, st1) :=
              resolveSeries g db ty (itemTvdbId item) (itemSearchTitle item) st0
            match sOpt with
            | none => (⟨404, "Series not found"⟩, st1)
            | some s =>
              if ty = "Series" then seriesKind cfg.seriesMode g s st1
              else if ty = "Season" then seasonKind cfg.seasonMode g s item.seasonNumber st1
              else episodeKind g s item.seasonNumber item.episodeNumber st1
          else (⟨200, "OK"⟩, st0)

/-! ## Gateway instantiations -/

/-- A fixed table of downstream responses: the environment of one request
when nothing constrains how the catalogs answer (used for the
error-handling claims). -/
structure Oracle where
  movieResp : String → RqResult (List Movie)
  delMovieResp : Nat → RqResult Unit
  seriesByIdResp : Nat → RqResult Series
  seriesByTvdbResp : String → RqResult (List Series)
  seriesListResp : RqResult (List Series)
  filesResp : Nat → RqResult (List EpisodeFile)
  delFileResp : Nat → RqResult Unit
  delSeriesResp : Nat → RqResult Unit
  putSeriesResp : Nat → RqResult Unit
  epsBySeriesResp : Nat → RqResult (List Episode)
  epsBySeasonResp : Nat → Option Int → RqResult (List Episode)
  putEpisodeResp : Nat → RqResult Unit

/-- The stateless gateway induced by a fixed response table. -/
def oracleGw (o : Oracle) : Gw Unit where
  getMovieByTmdb := fun q u => (o.movieResp q, u)
  delMovie := fun i u => (o.delMovieResp i, u)
  getSeriesById := fun i u => (o.seriesByIdResp i, u)
  getSeriesByTvdb := fun q u => (o.seriesByTvdbResp q, u)
  getSeriesList := fun u => (o.seriesListResp, u)
  getFiles := fun i u => (o.filesResp i, u)
  delFile := fun i u => (o.delFileResp i, u)
  delSeries := fun i u => (o.delSeriesResp i, u)
  putSeries := fun i _ u => (o.putSeriesResp i, u)
  getEpsBySeries := fun i u => (o.epsBySeriesResp i, u)
  getEpsBySeason := fun i sn u => (o.epsBySeasonResp i sn, u)
  putEpisode := fun i _ u => (o.putEpisodeResp i, u)

/-- The downstream catalogs' state: Sonarr's series, episodes and episode
files, and Radarr's movies. -/
structure World where
  series : List Series
  episodes : List Episode
  files : List EpisodeFile
  movies : List Movie
deriving DecidableEq

/-- Sonarr's answer body for `GET /api/v3/series/{id}` when the id is
unknown is never read by the script (the 404 guard fires first); this is
the placeholder body. -/
def phantomSeries : Series := ⟨0, "", "", [], none, none⟩

/-- Effect of `DELETE /api/v3/episodefile/{id}` on the catalog state: the
file record disappears and the owning episode no longer `hasFile`. -/
def World.delFile (w : World) (fid : Nat) : World :=
  { w with
    files := w.files.filter (fun f => f.id ≠ fid)
    episodes := w.episodes.map (fun e =>
      if e.episodeFileId = fid then { e with hasFile := false } else e) }

/-- Effect of `DELETE /api/v3/series/{id}?deleteFiles=true`. -/
def World.delSeries (w : World) (sid : Nat) : World :=
  { w with
    series := w.series.filter (fun s => s.id ≠ sid)
    episodes := w.episodes.filter (fun e => e.seriesId ≠ sid)
    files := w.files.filter (fun f => f.seriesId ≠ sid) }

/-- A live catalog pair that always answers 200 and applies each mutation
synchronously: the `Gw` instance used for the end-state claims. -/
def worldGw : Gw World where
  getMovieByTmdb := fun q w =>
    (.ok ⟨200, w.movies.filter (fun m => m.tmdbId = some q)⟩, w)
  delMovie := fun i w =>
    (.ok ⟨200, ()⟩, { w with movies := w.movies.filter (fun m => m.id ≠ i) })
  getSeriesById := fun i w =>
    match w.series.find? (fun s => s.id = i) with
    | some s => (.ok ⟨200, s⟩, w)
    | none => (.ok ⟨404, phantomSeries⟩, w)
  getSeriesByTvdb := fun q w =>
    (.ok ⟨200, w.series.filter (fun s => s.tvdbId = some q)⟩, w)
  getSeriesList := fun w => (.ok ⟨200, w.series⟩, w)
  getFiles := fun i w =>
    (.ok ⟨200, w.files.filter (fun f => f.seriesId = i)⟩, w)
  delFile := fun i w => (.ok ⟨200, ()⟩, w.delFile i)
  delSeries := fun i w => (.ok ⟨200, ()⟩, w.delSeries i)
  putSeries := fun i b w =>
    (.ok ⟨200, ()⟩,
     { w with series := w.series.map (fun s => if s.id = i then b else s) })
  getEpsBySeries := fun i w =>
    (.ok ⟨200, w.episodes.filter (fun e => e.seriesId = i)⟩, w)
  getEpsBySeason := fun i sn w =>
    (.ok ⟨200, w.episodes.filter
        (fun e => e.seriesId = i && some e.seasonNumber = sn)⟩, w)
  putEpisode := fun i b w =>
    (.ok ⟨200, ()⟩,
     { w with episodes := w.episodes.map (fun e => if e.id = i then b else e) })

/-! ## The sqlite store and `build_provider_map` -/

/-- A row of the `series` table. -/
structure SeriesRow where
  seriesId : Nat
  title : String
  tvdbId : Option String
  tmdbId : Option String
  imdbId : Option String
deriving DecidableEq

/-- A row of the `seasons` table (primary key `(series_id,
season_number)`). -/
structure SeasonRow where
  seriesId : Nat
  seasonNumber : Int
  tvdbId : Option String
  tmdbId : Option String
  imdbId : Option String
deriving DecidableEq

/-- A row of the `episodes` table. -/
structure EpisodeRow where
  episodeId : Nat
  seriesId : Nat
  seasonNumber : Int
  episodeNumber : Int
  tvdbId : Option String
  tmdbId : Option String
  imdbId : Option String
deriving DecidableEq

/-- A row of the `movies` table. -/
structure MovieRow where
  movieId : Nat
  title : String
  tmdbId : Option String
  imdbId : Option String
deriving DecidableEq

/-- The persisted store (`episode_map.db`): the five snapshot tables plus
`series_status` (from `db.py` / `sonarr.py`) and `settings`. -/
structure Db where
  series : List SeriesRow
  seasons : List SeasonRow
  episodes : List EpisodeRow
  movies : List MovieRow
  episodeMap : List (String × Nat)
  seriesStatus : List (Nat × Bool)
  settings : List (String × String)
deriving DecidableEq

/-- `INSERT OR IGNORE INTO episode_map`: keeps the existing row on a
primary-key conflict. -/
def insertOrIgnoreMap (m : List (String × Nat)) (k : String) (sid : Nat) :
    List (String × Nat) :=
  if m.any (fun p => p.1 = k) then m else m ++ [(k, sid)]

/-- `INSERT OR REPLACE INTO settings`. -/
def upsertSetting (m : List (String × String)) (k v : String) :
    List (String × String) :=
  if m.any (fun p => p.1 = k) then
    m.map (fun p => if p.1 = k then (k, v) else p)
  else m ++ [(k, v)]

/-- Plain `INSERT INTO series`: a duplicated primary key raises
`IntegrityError`, aborting (and rolling back) the whole rebuild. -/
def insertSeriesRow (d : Db) (r : SeriesRow) : Except Unit Db :=
  if d.series.any (fun x => x.seriesId = r.seriesId) then .error ()
  else .ok { d with series := d.series ++ [r] }

/-- Plain `INSERT INTO seasons` (composite primary key). -/
def insertSeasonRow (d : Db) (r : SeasonRow) : Except Unit Db :=
  if d.seasons.any (fun x => x.seriesId = r.seriesId ∧ x.seasonNumber = r.seasonNumber) then
    .error ()
  else .ok { d with seasons := d.seasons ++ [r] }

/-- Plain `INSERT INTO episodes`. -/
def insertEpisodeRow (d : Db) (r : EpisodeRow) : Except Unit Db :=
  if d.episodes.any (fun x => x.episodeId = r.episodeId) then .error ()
  else .ok { d with episodes := d.episodes ++ [r] }

/-- Plain `INSERT INTO movies`. -/
def insertMovieRow (d : Db) (r : MovieRow) : Except Unit Db :=
  if d.movies.any (fun x => x.movieId = r.movieId) then .error ()
  else .ok { d with movies := d.movies ++ [r] }

/-- What the rebuild fetches: the series list, each series' episode list,
and the movie list. -/
structure RebuildSrc where
  seriesResp : RqResult (List Series)
  epsResp : Nat → RqResult (List Episode)
  moviesResp : RqResult (List Movie)

/-- The per-series episode pass of `build_provider_map`: a raised fetch
exception aborts the rebuild; a non-200 silently skips this series'
episodes; otherwise insert each episode row and, for a truthy episode
TVDB id, `INSERT OR IGNORE` the map entry `(tvdb, series_id)`. -/
def insertEpisodesFor (src : RebuildSrc) (sid : Nat) (d : Db) :
    Except Unit Db :=
  match src.epsResp sid with
  | .error _ => .error ()
  | .ok resp =>
    if resp.status = 200 then
      resp.body.foldlM (fun d ep => do
        let d ← insertEpisodeRow d
          ⟨ep.id, sid, ep.seasonNumber, ep.episodeNumber, ep.tvdbId, none, ep.imdbId⟩
        match truthy ep.tvdbId with
        | some t => pure { d with episodeMap := insertOrIgnoreMap d.episodeMap t sid }
        | none => pure d) d
    else .ok d

/-- The per-series pass: insert the series row (note `tmdb = None` in the
source), its season rows, then its episodes. -/
def insertSeriesData (src : RebuildSrc) (d : Db) (ser : Series) :
    Except Unit Db := do
  let d ← insertSeriesRow d ⟨ser.id, ser.title, ser.tvdbId, none, ser.imdbId⟩
  let d ← ser.seasons.foldlM
    (fun d se => insertSeasonRow d ⟨ser.id, se.seasonNumber, none, none, none⟩) d
  insertEpisodesFor src ser.id d

/-- The in-transaction delete step of the rebuild (plus
`DELETE FROM series_status` under the `clear_status` directive of
`sonarr.py`). -/
def draftDb (clearStatus : Bool) (db : Db) : Db :=
  { db with movies := [], episodes := [], seasons := [], series := [],
            episodeMap := [],
            seriesStatus := if clearStatus then [] else db.seriesStatus }

/-- `build_provider_map`: delete the five snapshot tables, fetch, refill,
commit once at the end.  Every abort path (failed series fetch, raised
exception, `IntegrityError`) reaches `conn.close()` without
`conn.commit()`, so the store keeps its prior contents.  When the movie
fetch returns non-200 the series data is still committed, but the
`movie_count` NameError in the summary log then skips
`save_setting('last_refresh', ...)`. -/
def buildProviderMap (clearStatus : Bool) (src : RebuildSrc) (now : String)
    (db : Db) : Db :=
  let d0 := draftDb clearStatus db
  match src.seriesResp with
  | .error _ => db
  | .ok resp =>
    if resp.status ≠ 200 then db
    else
      match resp.body.foldlM (insertSeriesData src) d0 with
      | .error _ => db
      | .ok d1 =>
        match src.moviesResp with
        | .error _ => db
        | .ok mresp =>
          if mresp.status ≠ 200 then d1
          else
            match mresp.body.foldlM
                (fun d m => insertMovieRow d ⟨m.id, m.title, m.tmdbId, m.imdbId⟩) d1 with
            | .error _ => db
            | .ok d2 =>
              { d2 with settings := upsertSetting d2.settings "last_refresh" now }

/-! ## Helpers for stating the claims -/

/-- Did a `requests` call fail: raised exception, or completed with a
non-success status? -/
def rqFailed : RqResult α → Bool
  | .error _ => true
  | .ok r => r.status ≠ 200

/-- The item kind a request would be processed under: the truthy
`Item.Type` of a non-blank body decoding to an `ItemDeleted` dict. -/
def payloadItem (inp : WebhookInput) : Option Item :=
  if inp.bodyBlank then none
  else
    match inp.decoded with
    | some (.obj nt item?) =>
      if nt = some "ItemDeleted" then some (item?.getD emptyItem) else none
    | _ => none

/-- The truthy item kind of a processable deletion notification. -/
def payloadKind (inp : WebhookInput) : Option String :=
  (payloadItem inp).bind (fun it => truthy it.itemType)

/-- Lookup of a series by internal id in the downstream catalog (what
`GET /api/v3/series/{id}` resolves against). -/
def lookupSeries (w : World) (sid : Nat) : Option Series :=
  w.series.find? (fun s => s.id = sid)

/-- Lookup in the `episode_map` table (or in any keyed assoc list). -/
def lookupMap (m : List (String × Nat)) (k : String) : Option Nat :=
  (m.find? (fun p => p.1 = k)).map (fun p => p.2)

/-- The sequence of Episode-Map writes a rebuild pass attempts, in source
order: for each fetched series (whose episode fetch succeeded with 200),
each episode with a truthy TVDB id contributes `(tvdb, series_id)`. -/
def mapWrites (src : RebuildSrc) (l : List Series) : List (String × Nat) :=
  l.flatMap (fun ser =>
    match src.epsResp ser.id with
    | .ok resp =>
      if resp.status = 200 then
        resp.body.filterMap (fun ep => (truthy ep.tvdbId).map (fun t => (t, ser.id)))
      else []
    | .error _ => [])

/-- The movies of the catalog matching a TMDB-id query (the body of
`GET /api/v3/movie?tmdbId=`). -/
def movieMatches (w : World) (q : String) : List Movie :=
  w.movies.filter (fun m => m.tmdbId = some q)

/-- The series the TV branch would resolve against a given catalog state
(the value of the `series` variable at line 532). -/
def tvResolve (db : List (String × Nat)) (ty : String) (it : Item)
    (w : World) : Option Series :=
  (resolveSeries worldGw db ty (itemTvdbId it) (itemSearchTitle it) ⟨w, []⟩).1

/-- A well-formed downstream catalog: internal ids are unique per store. -/
def WfWorld (w : World) : Prop :=
  (w.series.map Series.id).Nodup ∧ (w.episodes.map Episode.id).Nodup ∧
  (w.files.map EpisodeFile.id).Nodup ∧ (w.movies.map Movie.id).Nodup

instance (w : World) : Decidable (WfWorld w) := by
  unfold WfWorld
  infer_instance

/-- Replay stability: the second delivery of the notification resolves to
no entity, or to an entity with the same internal id as the first run's.
The counterexample below shows idempotency genuinely fails without this
(two same-titled series: the replay resolves to, and deletes, the second
one). -/
def SecondRunAgrees (cfg : Cfg) (db : List (String × Nat))
    (inp : WebhookInput) (w : World) : Prop :=
  let w1 := (jellyfinWebhook cfg worldGw db inp w).2.env
  match payloadItem inp with
  | some it =>
    match truthy it.itemType with
    | some ty =>
      if ty = "Movie" then
        ∀ q, truthy (itemTmdbId it) = some q →
          ∀ m, (movieMatches w q).head? = some m →
            (movieMatches w1 q).head? = none ∨
            ∃ m₂, (movieMatches w1 q).head? = some m₂ ∧ m₂.id = m.id
      else if ty = "Series" ∨ ty = "Season" ∨ ty = "Episode" then
        ∀ s, tvResolve db ty it w = some s →
          tvResolve db ty it w1 = none ∨
          ∃ s₂, tvResolve db ty it w1 = some s₂ ∧ s₂.id = s.id
      else True
    | none => True
  | none => True

/-! ## Concrete sample data for counterexamples and witnesses -/

/-- A series catalog entry used by concrete scenarios. -/
def sShowA : Series := ⟨9, "Show A", "continuing", [⟨2, true⟩], some "77", none⟩

/-- An Episode-kind `ItemDeleted` item for S2E5 of `Show A`. -/
def itSampleEpisode : Item :=
  ⟨some "Episode", some "Ep 5", some "Show A", some 2, some 5, none, none, none, none⟩

/-- The webhook input wrapping an item into a decoded `ItemDeleted`
notification. -/
def inpOf (it : Item) : WebhookInput :=
  ⟨false, some (.obj (some "ItemDeleted") (some it))⟩

/-- An oracle whose every response is `200` with an empty body, except the
series list (which knows `sShowA`) and the per-season episode list, which
answers 503: the environment of the C1 counterexample. -/
def oEps503 : Oracle where
  movieResp := fun _ => .ok ⟨200, []⟩
  delMovieResp := fun _ => .ok ⟨200, ()⟩
  seriesByIdResp := fun _ => .ok ⟨404, phantomSeries⟩
  seriesByTvdbResp := fun _ => .ok ⟨200, []⟩
  seriesListResp := .ok ⟨200, [sShowA]⟩
  filesResp := fun _ => .ok ⟨200, []⟩
  delFileResp := fun _ => .ok ⟨200, ()⟩
  delSeriesResp := fun _ => .ok ⟨200, ()⟩
  putSeriesResp := fun _ => .ok ⟨200, ()⟩
  epsBySeriesResp := fun _ => .ok ⟨200, []⟩
  epsBySeasonResp := fun _ _ => .ok ⟨503, []⟩
  putEpisodeResp := fun _ => .ok ⟨200, ()⟩

/-- Two distinct series that share the title `X`, each owning one episode
file: the downstream state of the C5 counterexample. -/
def wTwinTitles : World :=
  { series := [⟨1, "X", "continuing", [], none, none⟩,
               ⟨2, "X", "continuing", [], none, none⟩]
    episodes := []
    files := [⟨10, 1, 1⟩, ⟨20, 2, 1⟩]
    movies := [] }

/-- A Series-kind deletion for title `X` with no provider id. -/
def itSeriesX : Item :=
  ⟨some "Series", some "X", none, none, none, none, none, none, none⟩

/-- The rebuild source of the C2 counterexample: two series whose episode
lists both carry TVDB id `100`. -/
def srcDupTvdb : RebuildSrc where
  seriesResp := .ok ⟨200, [⟨1, "A", "ended", [], some "11", none⟩,
                           ⟨2, "B", "ended", [], some "22", none⟩]⟩
  epsResp := fun sid =>
    if sid = 1 then .ok ⟨200, [⟨101, 1, 1, 1, true, true, 5, some "100", none⟩]⟩
    else if sid = 2 then .ok ⟨200, [⟨201, 2, 1, 1, true, true, 6, some "100", none⟩]⟩
    else .ok ⟨200, []⟩
  moviesResp := .ok ⟨200, []⟩

/-- A rebuild source whose initial series fetch raises. -/
def srcSeriesDown : RebuildSrc where
  seriesResp := .error ()
  epsResp := fun _ => .ok ⟨200, []⟩
  moviesResp := .ok ⟨200, []⟩

/-- A small committed store used to witness rollback behavior. -/
def dbPrior : Db :=
  { series := [⟨9, "Show A", some "77", none, none⟩]
    seasons := [⟨9, 2, none, none, none⟩]
    episodes := [⟨90, 9, 2, 5, some "500", none, none⟩]
    movies := [⟨7, "M", some "333", none⟩]
    episodeMap := [("500", 9)]
    seriesStatus := [(9, true)]
    settings := [("last_refresh", "2026-01-01")] }

/-! ## The handler's effect on a live catalog, as a pure state transformer

`webhookEffect` recomputes the downstream end-state of one request
against `worldGw`; `jellyfinWebhook_env_eq` below proves it agrees with
the handler run.  The end-state claims are reasoned about through it. -/

/-- Folded effect of the file-deletion loop on the catalog. -/
def World.delFilesAll (w : World) (fs : List EpisodeFile) : World :=
  fs.foldl (fun w f => w.delFile f.id) w

/-- Effect of the season-unmonitor block (`PUT` of the series with the
season's `monitored` flags cleared, iff anything changed). -/
def World.unmonitorEffect (w : World) (s : Series) (sn : Option Int) : World :=
  if seasonUpdated s sn then
    { w with series := w.series.map (fun x => if x.id = s.id then flipSeason s sn else x) }
  else w

/-- End-state of Series-kind processing. -/
def seriesKindEffect (mode : Nat) (s : Series) (w : World) : World :=
  let fs := w.files.filter (fun f => f.seriesId = s.id)
  let wd := w.delFilesAll fs
  if mode = 1 then wd
  else if mode = 2 then wd.delSeries s.id
  else if mode = 3 then
    let fully := (wd.episodes.filter (fun e => e.seriesId = s.id)).all
      (fun ep => !ep.monitored || ep.hasFile)
    if strLower s.status = "ended" ∧ fully then wd.delSeries s.id else wd
  else wd

/-- End-state of Season-kind processing. -/
def seasonKindEffect (mode : Nat) (s : Series) (sn : Option Int) (w : World) :
    World :=
  let fs := (w.files.filter (fun f => f.seriesId = s.id)).filter
    (fun f => some f.seasonNumber = sn)
  let wd := w.delFilesAll fs
  if mode = 1 then wd
  else if mode = 2 then wd.unmonitorEffect s sn
  else if mode = 3 then
    let fully := (wd.episodes.filter
        (fun e => e.seriesId = s.id && some e.seasonNumber = sn)).all
      (fun ep => !ep.monitored || ep.hasFile)
    if fully then wd.unmonitorEffect s sn else wd
  else wd

/-- End-state of Episode-kind processing. -/
def episodeKindEffect (s : Series) (sn en : Option Int) (w : World) : World :=
  let eps := w.episodes.filter
    (fun e => e.seriesId = s.id && some e.seasonNumber = sn)
  match eps.find? (fun e => some e.episodeNumber = en) with
  | none => w
  | some t =>
    let w1 := if t.monitored then
        { w with episodes := w.episodes.map (fun e =>
            if e.id = t.id then { t with monitored := false } else e) }
      else w
    if t.hasFile then w1.delFile t.episodeFileId else w1

/-- End-state of one request against the live catalog pair. -/
def webhookEffect (cfg : Cfg) (db : List (String × Nat)) (inp : WebhookInput)
    (w : World) : World :=
  match payloadItem inp with
  | none => w
  | some it =>
    match truthy it.itemType with
    | none => w
    | some ty =>
      if ty = "Movie" then
        match truthy (itemTmdbId it) with
        | none => w
        | some q =>
          match movieMatches w q with
          | [] => w
          | m :: _ => { w with movies := w.movies.filter (fun x => x.id ≠ m.id) }
      else if ty = "Series" ∨ ty = "Season" ∨ ty = "Episode" then
        match tvResolve db ty it w with
        | none => w
        | some s =>
          if ty = "Series" then seriesKindEffect cfg.seriesMode s w
          else if ty = "Season" then seasonKindEffect cfg.seasonMode s it.seasonNumber w
          else episodeKindEffect s it.seasonNumber it.episodeNumber w
      else w

/-- A one-series world owning a monitored, downloaded episode S2E5: the
witness scenario of the spec (section 8's worked example). -/
def wEpisodeWorld : World :=
  { series := [sShowA]
    episodes := [⟨90, 9, 2, 5, true, true, 55, some "500", none⟩]
    files := [⟨55, 9, 2⟩]
    movies := [] }

/-- The episode-map rows backing the witness scenario
(`episode TVDB 500 maps to series 9`). -/
def dbEpisodeMap : List (String × Nat) := [("500", 9)]

/-- The witness notification: Episode-kind deletion for S2E5 with episode
TVDB id `500`. -/
def itEpisode500 : Item :=
  ⟨some "Episode", some "Ep 5", some "Show A", some 2, some 5, some "500", none, none, none⟩

/-- The series list of the duplicate-TVDB-id rebuild scenario. -/
def slDup : List Series :=
  [⟨1, "A", "ended", [], some "11", none⟩, ⟨2, "B", "ended", [], some "22", none⟩]

/-- The store the duplicate-TVDB-id series pass produces from a cleared
draft of `dbPrior`: both series and episode rows inserted, but only the
first `("100", 1)` map write kept by `INSERT OR IGNORE`. -/
def d1Dup : Db :=
  { series := [⟨1, "A", some "11", none, none⟩, ⟨2, "B", some "22", none, none⟩]
    seasons := []
    episodes := [⟨101, 1, 1, 1, some "100", none, none⟩,
                 ⟨201, 2, 1, 1, some "100", none, none⟩]
    movies := []
    episodeMap := [("100", 1)]
    seriesStatus := []
    settings := [("last_refresh", "2026-01-01")] }

/-- The file list a Season deletion targets: the fetched files
restricted to the season (empty when the files fetch answered non-200,
mirroring the `if files_resp.status_code == 200` guard). -/
def seasonFilesOf (fresp : HttpResp (List EpisodeFile)) (sn : Option Int) :
    List EpisodeFile :=
  if fresp.status = 200 then fresp.body.filter (fun f => some f.seasonNumber = sn)
  else []

/-- An episode of season 2 of `Show A` that is monitored and has its
file. -/
def epS2E5 : Episode := ⟨90, 9, 2, 5, true, true, 51, none, none⟩

/-- Season 2's episode as a consistent catalog reports it after its file
was deleted: still monitored, `hasFile` now false. -/
def epS2E5Gone : Episode := ⟨90, 9, 2, 5, true, false, 0, none, none⟩

/-- An oracle consistent with the handler's sequencing: season 2 of
`Show A` holds one file when the request arrives, and the episode-list
probe — which the handler only runs after the deletes — reports the
monitored episode without its file. -/
def oSeasonProbe : Oracle where
  movieResp := fun _ => .ok ⟨200, []⟩
  delMovieResp := fun _ => .ok ⟨200, ()⟩
  seriesByIdResp := fun _ => .ok ⟨404, phantomSeries⟩
  seriesByTvdbResp := fun _ => .ok ⟨200, []⟩
  seriesListResp := .ok ⟨200, [sShowA]⟩
  filesResp := fun _ => .ok ⟨200, [⟨51, 9, 2⟩]⟩
  delFileResp := fun _ => .ok ⟨200, ()⟩
  delSeriesResp := fun _ => .ok ⟨200, ()⟩
  putSeriesResp := fun _ => .ok ⟨200, ()⟩
  epsBySeriesResp := fun _ => .ok ⟨200, [epS2E5Gone]⟩
  epsBySeasonResp := fun _ _ => .ok ⟨200, [epS2E5Gone]⟩
  putEpisodeResp := fun _ => .ok ⟨200, ()⟩

/-- A live catalog where season 2 of `Show A` is fully downloaded when
the request arrives: the season's one monitored episode has its file on
disk. -/
def wSeason2Full : World :=
  { series := [sShowA]
    episodes := [epS2E5]
    files := [⟨51, 9, 2⟩]
    movies := [] }

/-- An oracle where season 2 of `Show A` holds zero files and an empty
episode list (the vacuous case of the fully-downloaded check). -/
def oVacant : Oracle where
  movieResp := fun _ => .ok ⟨200, []⟩
  delMovieResp := fun _ => .ok ⟨200, ()⟩
  seriesByIdResp := fun _ => .ok ⟨404, phantomSeries⟩
  seriesByTvdbResp := fun _ => .ok ⟨200, []⟩
  seriesListResp := .ok ⟨200, [sShowA]⟩
  filesResp := fun _ => .ok ⟨200, []⟩
  delFileResp := fun _ => .ok ⟨200, ()⟩
  delSeriesResp := fun _ => .ok ⟨200, ()⟩
  putSeriesResp := fun _ => .ok ⟨200, ()⟩
  epsBySeriesResp := fun _ => .ok ⟨200, []⟩
  epsBySeasonResp := fun _ _ => .ok ⟨200, []⟩
  putEpisodeResp := fun _ => .ok ⟨200, ()⟩

/-- An oracle whose per-series and per-season episode-list endpoints
raise on every request while everything else succeeds. -/
def oProbeDown : Oracle where
  movieResp := fun _ => .ok ⟨200, []⟩
  delMovieResp := fun _ => .ok ⟨200, ()⟩
  seriesByIdResp := fun _ => .ok ⟨404, phantomSeries⟩
  seriesByTvdbResp := fun _ => .ok ⟨200, []⟩
  seriesListResp := .ok ⟨200, [sShowA]⟩
  filesResp := fun _ => .ok ⟨200, [⟨51, 9, 2⟩]⟩
  delFileResp := fun _ => .ok ⟨200, ()⟩
  delSeriesResp := fun _ => .ok ⟨200, ()⟩
  putSeriesResp := fun _ => .ok ⟨200, ()⟩
  epsBySeriesResp := fun _ => .error ()
  epsBySeasonResp := fun _ _ => .error ()
  putEpisodeResp := fun _ => .ok ⟨200, ()⟩

/-- A Season-kind `ItemDeleted` item for season 2 of `Show A`. -/
def itSeason2 : Item :=
  ⟨some "Season", some "Season 2", some "Show A", some 2, none, none, none, none, none⟩

/-- A call that neither removes a series nor updates one (no series
deletion, no season unmonitoring). -/
def seriesSafeCall (c : Call) : Prop :=
  c.isDelSeries = false ∧ c.isPutSeries = false

/-! ## Toolbox lemmas -/


theorem nodup_key_eq {l : List α} {f : α → β} (d : (l.map f).Nodup)
    {a b : α} (ha : a ∈ l) (hb : b ∈ l) (h : f a = f b) : a = b :=
  List.inj_on_of_nodup_map d ha hb h

/-! Response equations of the live-catalog gateway. -/

@[simp] theorem callGetMovie_worldGw (q : String) (st : St World) :
    callGetMovie worldGw q st =
      (.ok ⟨200, movieMatches st.env q⟩,
       ⟨st.env, st.tr ++ [Call.getMovie q (.ok ⟨200, movieMatches st.env q⟩)]⟩) := rfl

@[simp] theorem callDelMovie_worldGw (i : Nat) (st : St World) :
    callDelMovie worldGw i st =
      (.ok ⟨200, ()⟩,
       ⟨{ st.env with movies := st.env.movies.filter (fun m => m.id ≠ i) },
        st.tr ++ [Call.delMovie i (.ok ⟨200, ()⟩)]⟩) := rfl

@[simp] theorem callGetSeriesById_worldGw (i : Nat) (st : St World) :
    callGetSeriesById worldGw i st =
      (match st.env.series.find? (fun s => s.id = i) with
       | some s =>
         (.ok ⟨200, s⟩, ⟨st.env, st.tr ++ [Call.getSeriesById i (.ok ⟨200, s⟩)]⟩)
       | none =>
         (.ok ⟨404, phantomSeries⟩,
          ⟨st.env, st.tr ++ [Call.getSeriesById i (.ok ⟨404, phantomSeries⟩)]⟩)) := by
  unfold callGetSeriesById worldGw
  cases h : st.env.series.find? (fun s => s.id = i) <;> simp [h]

@[simp] theorem callGetSeriesByTvdb_worldGw (q : String) (st : St World) :
    callGetSeriesByTvdb worldGw q st =
      (.ok ⟨200, st.env.series.filter (fun s => s.tvdbId = some q)⟩,
       ⟨st.env, st.tr ++ [Call.getSeriesByTvdb q
          (.ok ⟨200, st.env.series.filter (fun s => s.tvdbId = some q)⟩)]⟩) := rfl

@[simp] theorem callGetSeriesList_worldGw (st : St World) :
    callGetSeriesList worldGw st =
      (.ok ⟨200, st.env.series⟩,
       ⟨st.env, st.tr ++ [Call.getSeriesList (.ok ⟨200, st.env.series⟩)]⟩) := rfl

@[simp] theorem callGetFiles_worldGw (i : Nat) (st : St World) :
    callGetFiles worldGw i st =
      (.ok ⟨200, st.env.files.filter (fun f => f.seriesId = i)⟩,
       ⟨st.env, st.tr ++ [Call.getFiles i
          (.ok ⟨200, st.env.files.filter (fun f => f.seriesId = i)⟩)]⟩) := rfl

@[simp] theorem callDelFile_worldGw (i : Nat) (st : St World) :
    callDelFile worldGw i st =
      (.ok ⟨200, ()⟩, ⟨st.env.delFile i, st.tr ++ [Call.delFile i (.ok ⟨200, ()⟩)]⟩) := rfl

@[simp] theorem callDelSeries_worldGw (i : Nat) (st : St World) :
    callDelSeries worldGw i st =
      (.ok ⟨200, ()⟩, ⟨st.env.delSeries i, st.tr ++ [Call.delSeries i (.ok ⟨200, ()⟩)]⟩) := rfl

@[simp] theorem callPutSeries_worldGw (i : Nat) (b : Series) (st : St World) :
    callPutSeries worldGw i b st =
      (.ok ⟨200, ()⟩,
       ⟨{ st.env with series := st.env.series.map (fun s => if s.id = i then b else s) },
        st.tr ++ [Call.putSeries i b (.ok ⟨200, ()⟩)]⟩) := rfl

@[simp] theorem callGetEpsBySeries_worldGw (i : Nat) (st : St World) :
    callGetEpsBySeries worldGw i st =
      (.ok ⟨200, st.env.episodes.filter (fun e => e.seriesId = i)⟩,
       ⟨st.env, st.tr ++ [Call.getEpsBySeries i
          (.ok ⟨200, st.env.episodes.filter (fun e => e.seriesId = i)⟩)]⟩) := rfl

@[simp] theorem callGetEpsBySeason_worldGw (i : Nat) (sn : Option Int) (st : St World) :
    callGetEpsBySeason worldGw i sn st =
      (.ok ⟨200, st.env.episodes.filter (fun e => e.seriesId = i && some e.seasonNumber = sn)⟩,
       ⟨st.env, st.tr ++ [Call.getEpsBySeason i sn
          (.ok ⟨200, st.env.episodes.filter (fun e => e.seriesId = i && some e.seasonNumber = sn)⟩)]⟩) := rfl

@[simp] theorem callPutEpisode_worldGw (i : Nat) (b : Episode) (st : St World) :
    callPutEpisode worldGw i b st =
      (.ok ⟨200, ()⟩,
       ⟨{ st.env with episodes := st.env.episodes.map (fun e => if e.id = i then b else e) },
        st.tr ++ [Call.putEpisode i b (.ok ⟨200, ()⟩)]⟩) := rfl

theorem findSeriesViaMap_worldGw_env (db : List (String × Nat)) (t : String)
    (st : St World) : (findSeriesViaMap worldGw db t st).2.env = st.env := by
  unfold findSeriesViaMap
  cases h : (List.find? (fun p => p.1 = t) db).map (fun p => p.2) with
  | none => rfl
  | some sid =>
    simp only [callGetSeriesById_worldGw]
    cases h2 : st.env.series.find? (fun s => s.id = sid) <;> simp [h2]

theorem findSeriesViaMap_worldGw_mem (db : List (String × Nat)) (t : String)
    (st : St World) (s : Series) :
    (findSeriesViaMap worldGw db t st).1 = some s → s ∈ st.env.series := by
  unfold findSeriesViaMap
  cases h : (List.find? (fun p => p.1 = t) db).map (fun p => p.2) with
  | none => simp
  | some sid =>
    simp only [callGetSeriesById_worldGw]
    cases h2 : st.env.series.find? (fun s => s.id = sid) with
    | none => simp [h2]
    | some s0 =>
      simp [h2]
      intro he
      rw [← he]
      exact List.mem_of_find?_eq_some h2

theorem findSeriesByTitle_worldGw_env (t : String) (st : St World) :
    (findSeriesByTitle worldGw t st).2.env = st.env := by
  unfold findSeriesByTitle
  split
  · rfl
  · simp

theorem findSeriesByTitle_worldGw_mem (t : String) (st : St World) (s : Series) :
    (findSeriesByTitle worldGw t st).1 = some s → s ∈ st.env.series := by
  unfold findSeriesByTitle
  split
  · simp
  · simp only [callGetSeriesList_worldGw]
    simp
    intro h
    exact List.mem_of_find?_eq_some h

theorem mem_of_head?_some {l : List α} {a : α} (h : l.head? = some a) : a ∈ l := by
  cases l with
  | nil => simp at h
  | cons x xs =>
    simp at h
    simp [h]

theorem findSeries_worldGw_env (tv : Option String) (t : String) (st : St World) :
    (findSeries worldGw tv t st).2.env = st.env := by
  unfold findSeries
  cases h : truthy tv with
  | none => exact findSeriesByTitle_worldGw_env t st
  | some q =>
    simp only [callGetSeriesByTvdb_worldGw]
    split
    · rfl
    · exact findSeriesByTitle_worldGw_env t _

theorem findSeries_worldGw_mem (tv : Option String) (t : String) (st : St World)
    (s : Series) : (findSeries worldGw tv t st).1 = some s → s ∈ st.env.series := by
  unfold findSeries
  cases h : truthy tv with
  | none => exact findSeriesByTitle_worldGw_mem t st s
  | some q =>
    simp only [callGetSeriesByTvdb_worldGw]
    split
    · intro hh
      simp only [] at hh
      exact List.mem_of_mem_filter (mem_of_head?_some hh)
    · exact findSeriesByTitle_worldGw_mem t _ s

theorem mapFirst_worldGw_env (db : List (String × Nat)) (ty : String)
    (tv : Option String) (st : St World) :
    (mapFirst worldGw db ty tv st).2.env = st.env := by
  unfold mapFirst
  split
  · cases h : truthy tv with
    | none => rfl
    | some q => exact findSeriesViaMap_worldGw_env db q st
  · rfl

theorem mapFirst_worldGw_mem (db : List (String × Nat)) (ty : String)
    (tv : Option String) (st : St World) (s : Series) :
    (mapFirst worldGw db ty tv st).1 = some s → s ∈ st.env.series := by
  unfold mapFirst
  split
  · cases h : truthy tv with
    | none => simp
    | some q => exact findSeriesViaMap_worldGw_mem db q st s
  · simp

theorem resolveSeries_worldGw_env (db : List (String × Nat)) (ty : String)
    (tv : Option String) (t : String) (st : St World) :
    (resolveSeries worldGw db ty tv t st).2.env = st.env := by
  unfold resolveSeries
  cases hm : mapFirst worldGw db ty tv st with
  | mk o st1 =>
    have h1 : st1.env = st.env := by
      have := mapFirst_worldGw_env db ty tv st
      rw [hm] at this
      exact this
    cases o with
    | some s => exact h1
    | none => rw [findSeries_worldGw_env, h1]

theorem resolveSeries_worldGw_mem (db : List (String × Nat)) (ty : String)
    (tv : Option String) (t : String) (st : St World) (s : Series) :
    (resolveSeries worldGw db ty tv t st).1 = some s → s ∈ st.env.series := by
  unfold resolveSeries
  cases hm : mapFirst worldGw db ty tv st with
  | mk o st1 =>
    have h1 : st1.env = st.env := by
      have := mapFirst_worldGw_env db ty tv st
      rw [hm] at this
      exact this
    cases o with
    | some s0 =>
      intro he
      have hs : s0 = s := by simpa using he
      subst hs
      have := mapFirst_worldGw_mem db ty tv st s0
      rw [hm] at this
      exact this rfl
    | none =>
      intro he
      simp only [] at he
      rw [← h1]
      exact findSeries_worldGw_mem _ t st1 s he

theorem deleteFiles_worldGw (fs : List EpisodeFile) (st : St World) :
    deleteFiles worldGw fs st =
      (⟨st.env.delFilesAll fs,
        st.tr ++ fs.map (fun f => Call.delFile f.id (.ok ⟨200, ()⟩))⟩, false) := by
  induction fs generalizing st with
  | nil => simp [deleteFiles, World.delFilesAll]
  | cons f rest ih =>
    simp only [deleteFiles, callDelFile_worldGw]
    rw [ih]
    simp [World.delFilesAll]

theorem delFilesAll_series (w : World) (fs : List EpisodeFile) :
    (w.delFilesAll fs).series = w.series := by
  induction fs generalizing w with
  | nil => rfl
  | cons f rest ih => simpa [World.delFilesAll, World.delFile] using ih (w.delFile f.id)

theorem delFilesAll_movies (w : World) (fs : List EpisodeFile) :
    (w.delFilesAll fs).movies = w.movies := by
  induction fs generalizing w with
  | nil => rfl
  | cons f rest ih => simpa [World.delFilesAll, World.delFile] using ih (w.delFile f.id)

theorem delFilesAll_files (w : World) (fs : List EpisodeFile) :
    (w.delFilesAll fs).files =
      w.files.filter (fun x => !(fs.any (fun f => f.id = x.id))) := by
  induction fs generalizing w with
  | nil => simp [World.delFilesAll]
  | cons f rest ih =>
    have step : w.delFilesAll (f :: rest) = (w.delFile f.id).delFilesAll rest := rfl
    rw [step, ih]
    simp only [World.delFile, List.filter_filter]
    apply List.filter_congr
    intro x _
    by_cases h : f.id = x.id <;> simp [h, eq_comm]

theorem delFilesAll_episodes (w : World) (fs : List EpisodeFile) :
    (w.delFilesAll fs).episodes =
      w.episodes.map (fun e =>
        if fs.any (fun f => e.episodeFileId = f.id) then { e with hasFile := false }
        else e) := by
  induction fs generalizing w with
  | nil => simp [World.delFilesAll]
  | cons f rest ih =>
    have step : w.delFilesAll (f :: rest) = (w.delFile f.id).delFilesAll rest := rfl
    rw [step, ih]
    simp only [World.delFile, List.map_map]
    apply List.map_congr_left
    intro e _
    by_cases h : e.episodeFileId = f.id <;>
      by_cases h2 : rest.any (fun g => e.episodeFileId = g.id) <;>
        simp [Function.comp, h, h2]

theorem isSeriesFullyDownloaded_worldGw (sid : Nat) (st : St World) :
    isSeriesFullyDownloaded worldGw sid st =
      ((st.env.episodes.filter (fun e => e.seriesId = sid)).all
          (fun ep => !ep.monitored || ep.hasFile),
       ⟨st.env, st.tr ++ [Call.getEpsBySeries sid
          (.ok ⟨200, st.env.episodes.filter (fun e => e.seriesId = sid)⟩)]⟩) := by
  unfold isSeriesFullyDownloaded
  simp

theorem isSeasonFullyDownloaded_worldGw (sid : Nat) (sn : Option Int) (st : St World) :
    isSeasonFullyDownloaded worldGw sid sn st =
      ((st.env.episodes.filter (fun e => e.seriesId = sid && some e.seasonNumber = sn)).all
          (fun ep => !ep.monitored || ep.hasFile),
       ⟨st.env, st.tr ++ [Call.getEpsBySeason sid sn
          (.ok ⟨200, st.env.episodes.filter
            (fun e => e.seriesId = sid && some e.seasonNumber = sn)⟩)]⟩) := by
  unfold isSeasonFullyDownloaded
  simp

theorem seriesKind_worldGw_env (mode : Nat) (s : Series) (st : St World) :
    (seriesKind mode worldGw s st).2.env = seriesKindEffect mode s st.env := by
  unfold seriesKind seriesKindEffect
  simp only [callGetFiles_worldGw, deleteFiles_worldGw, callDelSeries_worldGw,
    isSeriesFullyDownloaded_worldGw]
  split_ifs <;> rfl

theorem unmonitorSeason_worldGw (s : Series) (sn : Option Int) (st : St World) :
    unmonitorSeason worldGw s sn st =
      (⟨st.env.unmonitorEffect s sn,
        st.tr ++ (if seasonUpdated s sn then
          [Call.putSeries s.id (flipSeason s sn) (.ok ⟨200, ()⟩)] else [])⟩, false) := by
  unfold unmonitorSeason World.unmonitorEffect
  split_ifs <;> simp

theorem seasonKind_worldGw_env (mode : Nat) (s : Series) (sn : Option Int)
    (st : St World) :
    (seasonKind mode worldGw s sn st).2.env = seasonKindEffect mode s sn st.env := by
  unfold seasonKind seasonKindEffect
  simp only [callGetFiles_worldGw, deleteFiles_worldGw, isSeasonFullyDownloaded_worldGw,
    unmonitorSeason_worldGw]
  split_ifs <;> rfl

theorem epDelFile_worldGw (t : Episode) (st : St World) :
    epDelFile worldGw t st =
      (⟨200, "OK"⟩,
       ⟨if t.hasFile then st.env.delFile t.episodeFileId else st.env,
        st.tr ++ (if t.hasFile then
          [Call.delFile t.episodeFileId (.ok ⟨200, ()⟩)] else [])⟩) := by
  unfold epDelFile
  split_ifs <;> simp

theorem episodeKind_worldGw_env (s : Series) (sn en : Option Int) (st : St World) :
    (episodeKind worldGw s sn en st).2.env = episodeKindEffect s sn en st.env := by
  unfold episodeKind episodeKindEffect
  simp only [callGetEpsBySeason_worldGw, callPutEpisode_worldGw, epDelFile_worldGw]
  cases h : (st.env.episodes.filter
      (fun e => e.seriesId = s.id && some e.seasonNumber = sn)).find?
      (fun e => some e.episodeNumber = en) with
  | none => simp [h]
  | some t =>
    simp only [h]
    split_ifs <;> simp_all

theorem movieBranch_worldGw_env (q : String) (st : St World) :
    (movieBranch worldGw q st).2.env =
      (match movieMatches st.env q with
       | [] => st.env
       | m :: _ =>
         { st.env with movies := st.env.movies.filter (fun x => x.id ≠ m.id) }) := by
  unfold movieBranch
  simp only [callGetMovie_worldGw, callDelMovie_worldGw]
  cases h : movieMatches st.env q <;> simp [h]

theorem jellyfinWebhook_worldGw_env (cfg : Cfg) (db : List (String × Nat))
    (inp : WebhookInput) (w : World) :
    (jellyfinWebhook cfg worldGw db inp w).2.env = webhookEffect cfg db inp w := by
  unfold jellyfinWebhook webhookEffect payloadItem
  by_cases hb : inp.bodyBlank
  · simp [hb]
  · simp only [hb, Bool.false_eq_true, if_false]
    cases hd : inp.decoded with
    | none => rfl
    | some b =>
      cases b with
      | falsy => rfl
      | truthyNonDict => rfl
      | obj nt item? =>
        by_cases hnt : nt = some "ItemDeleted"
        · simp only [hnt, ne_eq, not_true_eq_false, if_false, if_true]
          cases hty : truthy (item?.getD emptyItem).itemType with
          | none => rfl
          | some ty =>
            by_cases hM : ty = "Movie"
            · subst hM
              simp only [eq_self_iff_true, if_true]
              cases htm : truthy (itemTmdbId (item?.getD emptyItem)) with
              | none => rfl
              | some tm => exact movieBranch_worldGw_env tm ⟨w, []⟩
            · by_cases hTV : ty = "Series" ∨ ty = "Season" ∨ ty = "Episode"
              · simp only [hM, if_false, hTV, if_true]
                cases hres : resolveSeries worldGw db ty
                    (itemTvdbId (item?.getD emptyItem))
                    (itemSearchTitle (item?.getD emptyItem)) (⟨w, []⟩ : St World) with
                | mk o st1 =>
                  have henv : st1.env = w := by
                    have := resolveSeries_worldGw_env db ty
                      (itemTvdbId (item?.getD emptyItem))
                      (itemSearchTitle (item?.getD emptyItem)) (⟨w, []⟩ : St World)
                    rw [hres] at this
                    exact this
                  have hres1 : tvResolve db ty (item?.getD emptyItem) w = o := by
                    unfold tvResolve
                    rw [hres]
                  rw [hres1]
                  cases o with
                  | none => exact henv
                  | some s =>
                    by_cases hS : ty = "Series"
                    · subst hS
                      simp only [eq_self_iff_true, if_true]
                      rw [seriesKind_worldGw_env, henv]
                    · by_cases hSe : ty = "Season"
                      · subst hSe
                        simp only [hS, if_false, eq_self_iff_true, if_true]
                        rw [seasonKind_worldGw_env, henv]
                      · simp only [hS, hSe, if_false]
                        rw [episodeKind_worldGw_env, henv]
              · simp only [hM, hTV, if_false]
        · simp only [hnt, ne_eq, not_false_eq_true, if_true, if_false]

theorem filter_map_comm {l : List α} {φ : α → α} {p : α → Bool}
    (h : ∀ a ∈ l, p (φ a) = p a) :
    (l.map φ).filter p = (l.filter p).map φ := by
  induction l with
  | nil => rfl
  | cons x xs ih =>
    have hx := h x (by simp)
    by_cases hp : p x
    · simp [hx, hp, ih (fun a ha => h a (by simp [ha]))]
    · simp only [Bool.not_eq_true] at hp
      simp [hx, hp, ih (fun a ha => h a (by simp [ha]))]

theorem find?_map_comm {l : List α} {φ : α → α} {q : α → Bool}
    (h : ∀ a ∈ l, q (φ a) = q a) :
    (l.map φ).find? q = (l.find? q).map φ := by
  induction l with
  | nil => rfl
  | cons x xs ih =>
    have hx := h x (by simp)
    by_cases hq : q x
    · simp [List.find?_cons, hx, hq]
    · simp only [Bool.not_eq_true] at hq
      simp [List.find?_cons, hx, hq, ih (fun a ha => h a (by simp [ha]))]

theorem delFilesAll_clears (w : World) (p : EpisodeFile → Bool) :
    (w.delFilesAll (w.files.filter p)).files.filter p = [] := by
  rw [delFilesAll_files]
  rw [List.filter_filter]
  apply List.filter_eq_nil_iff.mpr
  intro x hx
  by_cases hp : p x
  · have hmem : x ∈ w.files.filter p := List.mem_filter.mpr ⟨hx, hp⟩
    have hany : (w.files.filter p).any (fun f => f.id = x.id) = true :=
      List.any_eq_true.mpr ⟨x, hmem, by simp⟩
    simp [hp, hany]
  · simp [hp]

theorem seasonUpdated_flip (s : Series) (sn : Option Int) :
    seasonUpdated (flipSeason s sn) sn = false := by
  unfold seasonUpdated flipSeason
  simp only [List.any_map]
  apply List.any_eq_false.mpr
  intro se _
  by_cases hsn : some se.seasonNumber = sn
  · by_cases hm : se.monitored <;> simp [Function.comp, hsn, hm]
  · simp [Function.comp, hsn]

theorem unmonitorEffect_episodes (w : World) (s : Series) (sn : Option Int) :
    (w.unmonitorEffect s sn).episodes = w.episodes := by
  unfold World.unmonitorEffect
  split_ifs <;> rfl

theorem unmonitorEffect_files (w : World) (s : Series) (sn : Option Int) :
    (w.unmonitorEffect s sn).files = w.files := by
  unfold World.unmonitorEffect
  split_ifs <;> rfl

theorem unmonitorEffect_movies (w : World) (s : Series) (sn : Option Int) :
    (w.unmonitorEffect s sn).movies = w.movies := by
  unfold World.unmonitorEffect
  split_ifs <;> rfl

theorem episodeKindEffect_series (s : Series) (sn en : Option Int) (w : World) :
    (episodeKindEffect s sn en w).series = w.series := by
  unfold episodeKindEffect
  dsimp only
  split
  · rfl
  · split_ifs <;> rfl

theorem delFilesAll_nil (w : World) : w.delFilesAll [] = w := rfl

theorem seriesKindEffect_eq1 (s : Series) (w : World) :
    seriesKindEffect 1 s w =
      w.delFilesAll (w.files.filter (fun f => f.seriesId = s.id)) := rfl

theorem seriesKindEffect_eq2 (s : Series) (w : World) :
    seriesKindEffect 2 s w =
      (w.delFilesAll (w.files.filter (fun f => f.seriesId = s.id))).delSeries s.id := rfl

theorem seriesKindEffect_eq3 (s : Series) (w : World) :
    seriesKindEffect 3 s w =
      (if strLower s.status = "ended" ∧
          ((w.delFilesAll (w.files.filter (fun f => f.seriesId = s.id))).episodes.filter
            (fun e => e.seriesId = s.id)).all (fun ep => !ep.monitored || ep.hasFile) then
        (w.delFilesAll (w.files.filter (fun f => f.seriesId = s.id))).delSeries s.id
      else w.delFilesAll (w.files.filter (fun f => f.seriesId = s.id))) := rfl

theorem seriesKindEffect_eq_other (mode : Nat) (s : Series) (w : World)
    (h1 : mode ≠ 1) (h2 : mode ≠ 2) (h3 : mode ≠ 3) :
    seriesKindEffect mode s w =
      w.delFilesAll (w.files.filter (fun f => f.seriesId = s.id)) := by
  unfold seriesKindEffect
  rw [if_neg h1, if_neg h2, if_neg h3]

theorem delSeries_series (w : World) (sid : Nat) :
    (w.delSeries sid).series = w.series.filter (fun s => s.id ≠ sid) := rfl

theorem no_mem_delSeries_same (w : World) (s₂ : Series) (sid : Nat)
    (hmem : s₂ ∈ (w.delSeries sid).series) (hid : s₂.id = sid) : False := by
  rw [delSeries_series] at hmem
  have := (List.mem_filter.mp hmem).2
  simp [hid] at this

theorem seriesKindEffect_idem (mode : Nat) (s s₂ : Series) (w : World)
    (hWfS : (w.series.map Series.id).Nodup)
    (hs : s ∈ w.series)
    (hmem : s₂ ∈ (seriesKindEffect mode s w).series)
    (hid : s₂.id = s.id) :
    seriesKindEffect mode s₂ (seriesKindEffect mode s w) = seriesKindEffect mode s w := by
  by_cases h1 : mode = 1
  · subst h1
    rw [seriesKindEffect_eq1, seriesKindEffect_eq1, hid, delFilesAll_clears, delFilesAll_nil]
  · by_cases h2 : mode = 2
    · subst h2
      rw [seriesKindEffect_eq2] at hmem
      exact (no_mem_delSeries_same _ s₂ s.id hmem hid).elim
    · by_cases h3 : mode = 3
      · subst h3
        rw [seriesKindEffect_eq3] at hmem
        by_cases hc : strLower s.status = "ended" ∧
            ((w.delFilesAll (w.files.filter (fun f => f.seriesId = s.id))).episodes.filter
              (fun e => e.seriesId = s.id)).all (fun ep => !ep.monitored || ep.hasFile)
        · rw [if_pos hc] at hmem
          exact (no_mem_delSeries_same _ s₂ s.id hmem hid).elim
        · rw [if_neg hc] at hmem
          rw [delFilesAll_series] at hmem
          have hss : s₂ = s := nodup_key_eq hWfS hmem hs hid
          subst hss
          rw [show seriesKindEffect 3 s₂ w =
              w.delFilesAll (w.files.filter (fun f => f.seriesId = s₂.id)) from by
            rw [seriesKindEffect_eq3, if_neg hc]]
          rw [seriesKindEffect_eq3, delFilesAll_clears, delFilesAll_nil, if_neg hc]
      · rw [seriesKindEffect_eq_other mode s w h1 h2 h3] at hmem ⊢
        rw [seriesKindEffect_eq_other mode s₂ _ h1 h2 h3, hid, delFilesAll_clears,
          delFilesAll_nil]

theorem delFilesAll_clears2 (w : World) (q r : EpisodeFile → Bool) :
    ((w.delFilesAll ((w.files.filter q).filter r)).files.filter q).filter r = [] := by
  simp only [List.filter_filter]
  exact delFilesAll_clears w _

theorem unmonitorEffect_noop (w0 : World) (s₂ : Series) (sn : Option Int)
    (h : seasonUpdated s₂ sn = false) : w0.unmonitorEffect s₂ sn = w0 := by
  unfold World.unmonitorEffect
  rw [h]
  simp

theorem mem_unmonitor_eq (w0 : World) (s s₂ : Series) (sn : Option Int)
    (hnodup : (w0.series.map Series.id).Nodup) (hs : s ∈ w0.series)
    (hmem : s₂ ∈ (w0.unmonitorEffect s sn).series) (hid : s₂.id = s.id) :
    seasonUpdated s₂ sn = false := by
  unfold World.unmonitorEffect at hmem
  by_cases hupd : seasonUpdated s sn
  · rw [if_pos hupd] at hmem
    rcases List.mem_map.mp hmem with ⟨x, hx, hφ⟩
    by_cases hxid : x.id = s.id
    · have hxs : x = s := nodup_key_eq hnodup hx hs hxid
      subst hxs
      rw [if_pos rfl] at hφ
      rw [← hφ]
      exact seasonUpdated_flip x sn
    · rw [if_neg hxid] at hφ
      exact absurd (hφ ▸ hid) hxid
  · rw [if_neg hupd] at hmem
    have hss : s₂ = s := nodup_key_eq hnodup hmem hs hid
    rw [hss]
    simpa using hupd

theorem seasonKindEffect_eq1 (s : Series) (sn : Option Int) (w : World) :
    seasonKindEffect 1 s sn w =
      w.delFilesAll ((w.files.filter (fun f => f.seriesId = s.id)).filter
        (fun f => some f.seasonNumber = sn)) := rfl

theorem seasonKindEffect_eq2 (s : Series) (sn : Option Int) (w : World) :
    seasonKindEffect 2 s sn w =
      (w.delFilesAll ((w.files.filter (fun f => f.seriesId = s.id)).filter
        (fun f => some f.seasonNumber = sn))).unmonitorEffect s sn := rfl

theorem seasonKindEffect_eq3 (s : Series) (sn : Option Int) (w : World) :
    seasonKindEffect 3 s sn w =
      (if ((w.delFilesAll ((w.files.filter (fun f => f.seriesId = s.id)).filter
              (fun f => some f.seasonNumber = sn))).episodes.filter
            (fun e => e.seriesId = s.id && some e.seasonNumber = sn)).all
          (fun ep => !ep.monitored || ep.hasFile) then
        (w.delFilesAll ((w.files.filter (fun f => f.seriesId = s.id)).filter
          (fun f => some f.seasonNumber = sn))).unmonitorEffect s sn
      else
        w.delFilesAll ((w.files.filter (fun f => f.seriesId = s.id)).filter
          (fun f => some f.seasonNumber = sn))) := rfl

theorem seasonKindEffect_eq_other (mode : Nat) (s : Series) (sn : Option Int)
    (w : World) (h1 : mode ≠ 1) (h2 : mode ≠ 2) (h3 : mode ≠ 3) :
    seasonKindEffect mode s sn w =
      w.delFilesAll ((w.files.filter (fun f => f.seriesId = s.id)).filter
        (fun f => some f.seasonNumber = sn)) := by
  unfold seasonKindEffect
  rw [if_neg h1, if_neg h2, if_neg h3]

theorem seasonKindEffect_idem (mode : Nat) (s s₂ : Series) (sn : Option Int)
    (w : World)
    (hWfS : (w.series.map Series.id).Nodup)
    (hs : s ∈ w.series)
    (hmem : s₂ ∈ (seasonKindEffect mode s sn w).series)
    (hid : s₂.id = s.id) :
    seasonKindEffect mode s₂ sn (seasonKindEffect mode s sn w) =
      seasonKindEffect mode s sn w := by
  have hnodup_wd : (((w.delFilesAll ((w.files.filter (fun f => f.seriesId = s.id)).filter
      (fun f => some f.seasonNumber = sn))).series).map Series.id).Nodup := by
    rw [delFilesAll_series]
    exact hWfS
  have hs_wd : s ∈ (w.delFilesAll ((w.files.filter (fun f => f.seriesId = s.id)).filter
      (fun f => some f.seasonNumber = sn))).series := by
    rw [delFilesAll_series]
    exact hs
  by_cases h1 : mode = 1
  · subst h1
    rw [seasonKindEffect_eq1 s sn w]
    rw [seasonKindEffect_eq1]
    rw [hid, delFilesAll_clears2, delFilesAll_nil]
  · by_cases h2 : mode = 2
    · subst h2
      rw [seasonKindEffect_eq2] at hmem
      have hupd2 : seasonUpdated s₂ sn = false :=
        mem_unmonitor_eq _ s s₂ sn hnodup_wd hs_wd hmem hid
      rw [seasonKindEffect_eq2 s sn w]
      rw [seasonKindEffect_eq2]
      rw [hid, unmonitorEffect_files, delFilesAll_clears2, delFilesAll_nil]
      exact unmonitorEffect_noop _ s₂ sn hupd2
    · by_cases h3 : mode = 3
      · subst h3
        rw [seasonKindEffect_eq3] at hmem
        by_cases hf : ((w.delFilesAll ((w.files.filter (fun f => f.seriesId = s.id)).filter
              (fun f => some f.seasonNumber = sn))).episodes.filter
              (fun e => e.seriesId = s.id && some e.seasonNumber = sn)).all
            (fun ep => !ep.monitored || ep.hasFile)
        · rw [if_pos hf] at hmem
          have hupd2 : seasonUpdated s₂ sn = false :=
            mem_unmonitor_eq _ s s₂ sn hnodup_wd hs_wd hmem hid
          rw [show seasonKindEffect 3 s sn w =
              (w.delFilesAll ((w.files.filter (fun f => f.seriesId = s.id)).filter
                (fun f => some f.seasonNumber = sn))).unmonitorEffect s sn from by
            rw [seasonKindEffect_eq3, if_pos hf]]
          rw [seasonKindEffect_eq3]
          rw [hid, unmonitorEffect_files, delFilesAll_clears2, delFilesAll_nil,
            unmonitorEffect_episodes]
          rw [if_pos hf]
          exact unmonitorEffect_noop _ s₂ sn hupd2
        · rw [if_neg hf] at hmem
          rw [delFilesAll_series] at hmem
          have hss : s₂ = s := nodup_key_eq hWfS hmem hs hid
          subst hss
          rw [show seasonKindEffect 3 s₂ sn w =
              w.delFilesAll ((w.files.filter (fun f => f.seriesId = s₂.id)).filter
                (fun f => some f.seasonNumber = sn)) from by
            rw [seasonKindEffect_eq3, if_neg hf]]
          rw [seasonKindEffect_eq3]
          rw [delFilesAll_clears2, delFilesAll_nil]
          rw [if_neg hf]
      · rw [seasonKindEffect_eq_other mode s sn w h1 h2 h3]
        rw [seasonKindEffect_eq_other mode s₂ sn _ h1 h2 h3]
        rw [hid, delFilesAll_clears2, delFilesAll_nil]

theorem episodeKindEffect_none (s : Series) (sn en : Option Int) (w : World)
    (h : (w.episodes.filter (fun e => e.seriesId = s.id && some e.seasonNumber = sn)).find?
      (fun e => some e.episodeNumber = en) = none) :
    episodeKindEffect s sn en w = w := by
  unfold episodeKindEffect
  dsimp only
  rw [h]

theorem episodeKindEffect_some (s : Series) (sn en : Option Int) (w : World)
    (t : Episode)
    (h : (w.episodes.filter (fun e => e.seriesId = s.id && some e.seasonNumber = sn)).find?
      (fun e => some e.episodeNumber = en) = some t) :
    episodeKindEffect s sn en w =
      (if t.hasFile then
        (if t.monitored then
          { w with episodes := w.episodes.map (fun e =>
              if e.id = t.id then { t with monitored := false } else e) }
         else w).delFile t.episodeFileId
       else
        (if t.monitored then
          { w with episodes := w.episodes.map (fun e =>
              if e.id = t.id then { t with monitored := false } else e) }
         else w)) := by
  unfold episodeKindEffect
  dsimp only
  rw [h]

theorem episode_second_noop (s : Series) (sn en : Option Int) (w : World)
    (t : Episode) (φ : Episode → Episode)
    (hfind : (w.episodes.filter (fun e => e.seriesId = s.id && some e.seasonNumber = sn)).find?
      (fun e => some e.episodeNumber = en) = some t)
    (hfields : ∀ e ∈ w.episodes, (φ e).seriesId = e.seriesId ∧
      (φ e).seasonNumber = e.seasonNumber ∧ (φ e).episodeNumber = e.episodeNumber)
    (hmon : (φ t).monitored = false)
    (hfile : (φ t).hasFile = false)
    (w2 : World)
    (hw2e : w2.episodes = w.episodes.map φ) :
    episodeKindEffect s sn en w2 = w2 := by
  have hp : ∀ e ∈ w.episodes,
      (fun e => e.seriesId = s.id && some e.seasonNumber = sn) (φ e) =
      (fun e => e.seriesId = s.id && some e.seasonNumber = sn) e := by
    intro e he
    simp only [(hfields e he).1, (hfields e he).2.1]
  have hq : ∀ e ∈ w.episodes.filter (fun e => e.seriesId = s.id && some e.seasonNumber = sn),
      (fun e => decide (some e.episodeNumber = en)) (φ e) =
      (fun e => decide (some e.episodeNumber = en)) e := by
    intro e he
    simp only [(hfields e (List.mem_of_mem_filter he)).2.2]
  have hfind2 : (w2.episodes.filter
      (fun e => e.seriesId = s.id && some e.seasonNumber = sn)).find?
      (fun e => some e.episodeNumber = en) = some (φ t) := by
    rw [hw2e, filter_map_comm hp, find?_map_comm hq, hfind]
    rfl
  rw [episodeKindEffect_some s sn en w2 (φ t) hfind2]
  rw [if_neg (by rw [hfile]; exact Bool.false_ne_true)]
  rw [if_neg (by rw [hmon]; exact Bool.false_ne_true)]

theorem episodeKindEffect_idem (s : Series) (sn en : Option Int) (w : World)
    (hWfE : (w.episodes.map Episode.id).Nodup) :
    episodeKindEffect s sn en (episodeKindEffect s sn en w) =
      episodeKindEffect s sn en w := by
  cases hfind : (w.episodes.filter
      (fun e => e.seriesId = s.id && some e.seasonNumber = sn)).find?
      (fun e => some e.episodeNumber = en) with
  | none =>
    rw [episodeKindEffect_none s sn en w hfind, episodeKindEffect_none s sn en w hfind]
  | some t =>
    have ht_mem : t ∈ w.episodes :=
      List.mem_of_mem_filter (List.mem_of_find?_eq_some hfind)
    have hfix : ∀ e ∈ w.episodes, e.id = t.id → e = t := by
      intro e he hide
      exact nodup_key_eq hWfE he ht_mem hide
    by_cases hmon : t.monitored
    · by_cases hfile : t.hasFile
      · rw [episodeKindEffect_some s sn en w t hfind, if_pos hfile, if_pos hmon]
        apply episode_second_noop s sn en w t
          (fun e =>
            (fun x => if x.episodeFileId = t.episodeFileId then { x with hasFile := false } else x)
            ((fun x => if x.id = t.id then { t with monitored := false } else x) e))
          hfind
        · intro e he
          by_cases hide : e.id = t.id
          · have het := hfix e he hide
            subst het
            simp [hide]
          · by_cases hfid : e.episodeFileId = t.episodeFileId <;> simp [hide, hfid]
        · simp
        · simp
        · have step : ((World.delFile { w with episodes := List.map (fun x => if x.id = t.id then { t with monitored := false } else x) w.episodes } t.episodeFileId)).episodes = List.map (fun x => if x.episodeFileId = t.episodeFileId then { x with hasFile := false } else x) (List.map (fun x => if x.id = t.id then { t with monitored := false } else x) w.episodes) := rfl
          rw [step, List.map_map]
          rfl
      · rw [episodeKindEffect_some s sn en w t hfind, if_neg hfile, if_pos hmon]
        apply episode_second_noop s sn en w t
          (fun x => if x.id = t.id then { t with monitored := false } else x) hfind
        · intro e he
          by_cases hide : e.id = t.id
          · have het := hfix e he hide
            subst het
            simp [hide]
          · simp [hide]
        · simp
        · simp only [if_pos rfl]
          simpa using hfile
        · rfl
    · by_cases hfile : t.hasFile
      · rw [episodeKindEffect_some s sn en w t hfind, if_pos hfile, if_neg hmon]
        apply episode_second_noop s sn en w t
          (fun x => if x.episodeFileId = t.episodeFileId then { x with hasFile := false } else x)
          hfind
        · intro e he
          by_cases hfid : e.episodeFileId = t.episodeFileId <;> simp [hfid]
        · simp only [if_pos rfl]
          simpa using hmon
        · simp
        · rfl
      · rw [episodeKindEffect_some s sn en w t hfind, if_neg hfile, if_neg hmon]
        rw [episodeKindEffect_some s sn en w t hfind, if_neg hfile, if_neg hmon]

theorem tvResolve_mem (db : List (String × Nat)) (ty : String) (it : Item)
    (w : World) (s : Series) (h : tvResolve db ty it w = some s) :
    s ∈ w.series :=
  resolveSeries_worldGw_mem db ty (itemTvdbId it) (itemSearchTitle it) ⟨w, []⟩ s h

theorem webhookEffect_idem (cfg : Cfg) (db : List (String × Nat))
    (inp : WebhookInput) (w : World) (hwf : WfWorld w)
    (hagree : SecondRunAgrees cfg db inp w) :
    webhookEffect cfg db inp (webhookEffect cfg db inp w) =
      webhookEffect cfg db inp w := by
  unfold SecondRunAgrees at hagree
  simp only [jellyfinWebhook_worldGw_env] at hagree
  cases hpi : payloadItem inp with
  | none =>
    have h0 : ∀ v, webhookEffect cfg db inp v = v := by
      intro v
      unfold webhookEffect
      rw [hpi]
    rw [h0, h0]
  | some it =>
    cases hty : truthy it.itemType with
    | none =>
      have h0 : ∀ v, webhookEffect cfg db inp v = v := by
        intro v
        unfold webhookEffect
        rw [hpi]
        dsimp only
        rw [hty]
      rw [h0, h0]
    | some ty =>
      rw [hpi] at hagree
      dsimp only at hagree
      rw [hty] at hagree
      dsimp only at hagree
      by_cases hM : ty = "Movie"
      · subst hM
        rw [if_pos rfl] at hagree
        have hEq : ∀ v, webhookEffect cfg db inp v =
            (match truthy (itemTmdbId it) with
             | none => v
             | some q =>
               match movieMatches v q with
               | [] => v
               | m :: _ =>
                 { v with movies := v.movies.filter (fun x => x.id ≠ m.id) }) := by
          intro v
          unfold webhookEffect
          rw [hpi]
          dsimp only
          rw [hty]
          dsimp only
          rw [if_pos rfl]
        cases htm : truthy (itemTmdbId it) with
        | none =>
          have h0 : ∀ v, webhookEffect cfg db inp v = v := by
            intro v
            rw [hEq, htm]
          rw [h0, h0]
        | some q =>
          cases hl : movieMatches w q with
          | nil =>
            have h1 : webhookEffect cfg db inp w = w := by
              rw [hEq, htm]
              dsimp only
              rw [hl]
            rw [h1, h1]
          | cons m rest =>
            have h1 : webhookEffect cfg db inp w =
                { w with movies := w.movies.filter (fun x => x.id ≠ m.id) } := by
              rw [hEq, htm]
              dsimp only
              rw [hl]
            have hhead : (movieMatches w q).head? = some m := by
              rw [hl]
              rfl
            have hnil : movieMatches (webhookEffect cfg db inp w) q = [] := by
              rcases hagree q htm m hhead with hn | ⟨m₂, hm₂, hmid⟩
              · exact List.head?_eq_none_iff.mp hn
              · exfalso
                have hmem2 : m₂ ∈ movieMatches (webhookEffect cfg db inp w) q :=
                  mem_of_head?_some hm₂
                have : m₂ ∈ (webhookEffect cfg db inp w).movies :=
                  List.mem_of_mem_filter hmem2
                rw [h1] at this
                have := (List.mem_filter.mp this).2
                simp [hmid] at this
            rw [hEq (webhookEffect cfg db inp w), htm]
            dsimp only
            rw [hnil]
      · by_cases hTV : ty = "Series" ∨ ty = "Season" ∨ ty = "Episode"
        · rw [if_neg hM, if_pos hTV] at hagree
          have hEq : ∀ v, webhookEffect cfg db inp v =
              (match tvResolve db ty it v with
               | none => v
               | some s =>
                 if ty = "Series" then seriesKindEffect cfg.seriesMode s v
                 else if ty = "Season" then
                   seasonKindEffect cfg.seasonMode s it.seasonNumber v
                 else episodeKindEffect s it.seasonNumber it.episodeNumber v) := by
            intro v
            unfold webhookEffect
            rw [hpi]
            dsimp only
            rw [hty]
            dsimp only
            rw [if_neg hM, if_pos hTV]
          cases hres : tvResolve db ty it w with
          | none =>
            have h1 : webhookEffect cfg db inp w = w := by
              rw [hEq, hres]
            rw [h1, h1]
          | some s =>
            have hsmem : s ∈ w.series := tvResolve_mem db ty it w s hres
            by_cases hS : ty = "Series"
            · subst hS
              have h1 : webhookEffect cfg db inp w = seriesKindEffect cfg.seriesMode s w := by
                rw [hEq, hres]
                dsimp only
                rw [if_pos rfl]
              rw [h1] at hagree ⊢
              rw [hEq]
              rcases hagree s hres with hn | ⟨s₂, hs₂, hsid⟩
              · rw [hn]
              · rw [hs₂]
                dsimp only
                rw [if_pos rfl]
                have hmem2 : s₂ ∈ (seriesKindEffect cfg.seriesMode s w).series :=
                  tvResolve_mem db _ it _ s₂ hs₂
                exact seriesKindEffect_idem cfg.seriesMode s s₂ w hwf.1 hsmem hmem2 hsid
            · by_cases hSe : ty = "Season"
              · subst hSe
                have h1 : webhookEffect cfg db inp w =
                    seasonKindEffect cfg.seasonMode s it.seasonNumber w := by
                  rw [hEq, hres]
                  dsimp only
                  rw [if_neg hS, if_pos rfl]
                rw [h1] at hagree ⊢
                rw [hEq]
                rcases hagree s hres with hn | ⟨s₂, hs₂, hsid⟩
                · rw [hn]
                · rw [hs₂]
                  dsimp only
                  rw [if_neg hS, if_pos rfl]
                  have hmem2 : s₂ ∈ (seasonKindEffect cfg.seasonMode s it.seasonNumber w).series :=
                    tvResolve_mem db _ it _ s₂ hs₂
                  exact seasonKindEffect_idem cfg.seasonMode s s₂ it.seasonNumber w
                    hwf.1 hsmem hmem2 hsid
              · have h1 : webhookEffect cfg db inp w =
                    episodeKindEffect s it.seasonNumber it.episodeNumber w := by
                  rw [hEq, hres]
                  dsimp only
                  rw [if_neg hS, if_neg hSe]
                rw [h1] at hagree ⊢
                rw [hEq]
                rcases hagree s hres with hn | ⟨s₂, hs₂, hsid⟩
                · rw [hn]
                · rw [hs₂]
                  dsimp only
                  rw [if_neg hS, if_neg hSe]
                  have hmem2 : s₂ ∈ (episodeKindEffect s it.seasonNumber it.episodeNumber w).series :=
                    tvResolve_mem db _ it _ s₂ hs₂
                  rw [episodeKindEffect_series] at hmem2
                  have hss : s₂ = s := nodup_key_eq hwf.1 hmem2 hsmem hsid
                  subst hss
                  exact episodeKindEffect_idem s₂ it.seasonNumber it.episodeNumber w hwf.2.1
        · have h0 : ∀ v, webhookEffect cfg db inp v = v := by
            intro v
            unfold webhookEffect
            rw [hpi]
            dsimp only
            rw [hty]
            dsimp only
            rw [if_neg hM, if_neg hTV]
          rw [h0, h0]

/-! ## Claim C5 — idempotency of deletion processing -/

/-- Claim C5, counterexample.  The claim states that replaying an
identical resolvable ItemDeleted notification leaves the downstream
end-state unchanged.  It is false: with two distinct series both titled
`X` and `SERIES_DELETION_MODE = 2`, the first run resolves (shown
explicitly) and removes series 1; the replay resolves the *other* series
by the same title match and deletes it too, so the end-state after two
runs differs from the end-state after one. -/
theorem webhook_replay_changes_state_cex :
    tvResolve [] "Series" itSeriesX wTwinTitles =
      some ⟨1, "X", "continuing", [], none, none⟩ ∧
    (jellyfinWebhook ⟨2, 1⟩ worldGw [] (inpOf itSeriesX)
        (jellyfinWebhook ⟨2, 1⟩ worldGw [] (inpOf itSeriesX) wTwinTitles).2.env).2.env ≠
      (jellyfinWebhook ⟨2, 1⟩ worldGw [] (inpOf itSeriesX) wTwinTitles).2.env := by
  decide

/-- Claim C5 (amended): replaying an identical ItemDeleted notification
against the downstream state left by the first run yields the same
downstream end-state, provided the catalog has unique internal ids
(`WfWorld`) and the replay's resolution is stable — it resolves to no
entity or to an entity with the first run's internal id
(`SecondRunAgrees`; the counterexample shows the claim fails without
this, since a title lookup can fall to a second same-titled series). -/
theorem webhook_replay_idempotent_of_stable (cfg : Cfg)
    (db : List (String × Nat)) (inp : WebhookInput) (w : World)
    (hwf : WfWorld w) (hagree : SecondRunAgrees cfg db inp w) :
    (jellyfinWebhook cfg worldGw db inp
        (jellyfinWebhook cfg worldGw db inp w).2.env).2.env =
      (jellyfinWebhook cfg worldGw db inp w).2.env := by
  simp only [jellyfinWebhook_worldGw_env]
  exact webhookEffect_idem cfg db inp w hwf hagree

/-- Claim C5, witness: the amended theorem applied to the spec's worked
example (episode S2E5 of a mapped series, deleted twice). -/
theorem webhook_replay_idempotent_of_stable_witness :
    (jellyfinWebhook ⟨1, 1⟩ worldGw dbEpisodeMap (inpOf itEpisode500)
        (jellyfinWebhook ⟨1, 1⟩ worldGw dbEpisodeMap (inpOf itEpisode500)
          wEpisodeWorld).2.env).2.env =
      (jellyfinWebhook ⟨1, 1⟩ worldGw dbEpisodeMap (inpOf itEpisode500)
        wEpisodeWorld).2.env := by
  apply webhook_replay_idempotent_of_stable
  · decide
  · intro s hs
    simp only [Option.getD_some] at hs ⊢
    have h1 : tvResolve dbEpisodeMap "Episode" itEpisode500 wEpisodeWorld =
        some sShowA := by decide
    rw [h1] at hs
    cases hs
    right
    exact ⟨sShowA, by decide, rfl⟩

/-! ## Claim C6 — Safe vs Aggressive series deletion -/

theorem delFilesAll_files_of_nodup (w : World) (sid : Nat)
    (hWfF : (w.files.map EpisodeFile.id).Nodup) :
    (w.delFilesAll (w.files.filter (fun f => f.seriesId = sid))).files =
      w.files.filter (fun f => f.seriesId ≠ sid) := by
  rw [delFilesAll_files]
  apply List.filter_congr
  intro x hx
  by_cases hsx : x.seriesId = sid
  · have hmem : x ∈ w.files.filter (fun f => f.seriesId = sid) :=
      List.mem_filter.mpr ⟨hx, by simp [hsx]⟩
    have hany : (w.files.filter (fun f => f.seriesId = sid)).any
        (fun f => f.id = x.id) = true :=
      List.any_eq_true.mpr ⟨x, hmem, by simp⟩
    simp [hany, hsx]
  · have hnone : (w.files.filter (fun f => f.seriesId = sid)).any
        (fun f => f.id = x.id) = false := by
      apply List.any_eq_false.mpr
      intro f hf
      simp only [decide_eq_true_eq]
      intro hide
      rcases List.mem_filter.mp hf with ⟨hfw, hfs⟩
      have hfx : f = x := nodup_key_eq hWfF hfw hx hide
      rw [hfx] at hfs
      simp [hsx] at hfs
    simp [hnone, hsx]

theorem series_effect_of_resolved (cfg : Cfg) (db : List (String × Nat))
    (it : Item) (w : World) (s : Series)
    (hty : it.itemType = some "Series")
    (hres : tvResolve db "Series" it w = some s) :
    webhookEffect cfg db (inpOf it) w = seriesKindEffect cfg.seriesMode s w := by
  unfold webhookEffect
  rw [show payloadItem (inpOf it) = some it from rfl]
  dsimp only
  rw [show truthy it.itemType = some "Series" from by rw [hty]; rfl]
  dsimp only
  rw [if_neg (by decide), if_pos (Or.inl rfl), hres]
  dsimp only
  rw [if_pos rfl]

/-- Claim C6: for a Series-kind deletion that resolves to series `s`, in
mode Safe (1) only the series' episode files are deleted — the series
list (and the movie store) is untouched and a lookup of `s.id` still
succeeds — while in mode Aggressive (2) the series entry is removed, so
the same lookup no longer resolves. -/
theorem series_safe_keeps_aggressive_removes (cfg : Cfg)
    (db : List (String × Nat)) (it : Item) (w : World) (s : Series)
    (hwf : WfWorld w)
    (hty : it.itemType = some "Series")
    (hres : tvResolve db "Series" it w = some s) :
    (cfg.seriesMode = 1 →
      (jellyfinWebhook cfg worldGw db (inpOf it) w).2.env.series = w.series ∧
      (jellyfinWebhook cfg worldGw db (inpOf it) w).2.env.movies = w.movies ∧
      (jellyfinWebhook cfg worldGw db (inpOf it) w).2.env.files =
        w.files.filter (fun f => f.seriesId ≠ s.id) ∧
      (lookupSeries (jellyfinWebhook cfg worldGw db (inpOf it) w).2.env s.id).isSome) ∧
    (cfg.seriesMode = 2 →
      lookupSeries (jellyfinWebhook cfg worldGw db (inpOf it) w).2.env s.id = none) := by
  rw [jellyfinWebhook_worldGw_env, series_effect_of_resolved cfg db it w s hty hres]
  constructor
  · intro hmode
    rw [hmode, seriesKindEffect_eq1]
    refine ⟨delFilesAll_series .., delFilesAll_movies .., delFilesAll_files_of_nodup w s.id hwf.2.2.1, ?_⟩
    unfold lookupSeries
    rw [delFilesAll_series]
    have hsmem : s ∈ w.series := tvResolve_mem db "Series" it w s hres
    rw [List.find?_isSome]
    exact ⟨s, hsmem, by simp⟩
  · intro hmode
    rw [hmode, seriesKindEffect_eq2]
    unfold lookupSeries
    rw [delSeries_series, delFilesAll_series]
    rw [List.find?_eq_none]
    intro x hxmem
    simp only [decide_eq_true_eq]
    intro hxid
    have := (List.mem_filter.mp hxmem).2
    simp [hxid] at this

/-- Claim C6, witness: an Aggressive (mode 2) series deletion of
`Show A` leaves its internal id unresolvable. -/
theorem series_safe_keeps_aggressive_removes_witness :
    lookupSeries (jellyfinWebhook ⟨2, 1⟩ worldGw []
      (inpOf ⟨some "Series", some "Show A", none, none, none, some "77", none, none, none⟩)
      wEpisodeWorld).2.env 9 = none := by
  have h := series_safe_keeps_aggressive_removes ⟨2, 1⟩ []
    ⟨some "Series", some "Show A", none, none, none, some "77", none, none, none⟩
    wEpisodeWorld sShowA (by decide) rfl (by decide)
  exact h.2 rfl

/-! ## Claim C4 — undecodable bodies are acknowledged without mutation -/

/-- Claim C4: a non-blank request body whose strict JSON decode still
fails after the repair pass is answered 200 and the handler issues no
downstream call at all (empty trace, hence no delete, unmonitor or
update), over any gateway and environment. -/
theorem undecodable_body_ok_no_calls (cfg : Cfg) (g : Gw σ)
    (db : List (String × Nat)) (inp : WebhookInput) (env0 : σ)
    (hnb : inp.bodyBlank = false) (hdec : inp.decoded = none) :
    (jellyfinWebhook cfg g db inp env0).1.status = 200 ∧
    (jellyfinWebhook cfg g db inp env0).2.tr = [] := by
  unfold jellyfinWebhook
  rw [hnb, hdec]
  exact ⟨rfl, rfl⟩

/-- Claim C4, witness: a concrete undecodable body against the sample
oracle. -/
theorem undecodable_body_ok_no_calls_witness :
    (jellyfinWebhook ⟨1, 1⟩ (oracleGw oEps503) [] ⟨false, none⟩ ()).1.status = 200 ∧
    (jellyfinWebhook ⟨1, 1⟩ (oracleGw oEps503) [] ⟨false, none⟩ ()).2.tr = [] :=
  undecodable_body_ok_no_calls ⟨1, 1⟩ (oracleGw oEps503) [] ⟨false, none⟩ () rfl rfl

/-! ## Claim C1 — which failures can surface as 5xx -/

theorem movieBranch_status (g : Gw σ) (tm : String) (st : St σ) :
    (movieBranch g tm st).1.status = 200 := by
  unfold movieBranch
  cases hc : callGetMovie g tm st with
  | mk r st1 =>
    dsimp only
    cases r with
    | error e => rfl
    | ok resp =>
      dsimp only
      by_cases hst : resp.status ≠ 200
      · rw [if_pos hst]
      · rw [if_neg hst]
        cases resp.body with
        | nil => rfl
        | cons m rest =>
          dsimp only

theorem seriesKind_status (mode : Nat) (g : Gw σ) (s : Series) (st : St σ) :
    (seriesKind mode g s st).1.status = 200 := by
  unfold seriesKind
  cases hc : callGetFiles g s.id st with
  | mk r st1 =>
    dsimp only
    cases r with
    | error e => rfl
    | ok resp =>
      dsimp only
      cases hd : deleteFiles g (if resp.status = 200 then resp.body else []) st1 with
      | mk st2 aborted =>
        cases aborted with
        | true => rfl
        | false =>
          dsimp only
          split_ifs <;> rfl

theorem seasonKind_status (mode : Nat) (g : Gw σ) (s : Series) (sn : Option Int)
    (st : St σ) : (seasonKind mode g s sn st).1.status = 200 := by
  unfold seasonKind
  cases hc : callGetFiles g s.id st with
  | mk r st1 =>
    dsimp only
    cases r with
    | error e => rfl
    | ok resp =>
      dsimp only
      cases hd : deleteFiles g
          (if resp.status = 200 then resp.body.filter (fun f => some f.seasonNumber = sn) else [])
          st1 with
      | mk st2 aborted =>
        cases aborted with
        | true => rfl
        | false =>
          dsimp only
          split_ifs <;> rfl

theorem epDelFile_status (g : Gw σ) (t : Episode) (st : St σ) :
    (epDelFile g t st).1.status = 200 := by
  unfold epDelFile
  split_ifs with h
  · cases hc : callDelFile g t.episodeFileId st with
    | mk r st1 => rfl
  · rfl

theorem episodeKind_oracle_status (o : Oracle) (s : Series) (sn en : Option Int)
    (st : St Unit) :
    (episodeKind (oracleGw o) s sn en st).1.status = 200 ∨
    ((episodeKind (oracleGw o) s sn en st).1.status = 500 ∧
      ∃ r, o.epsBySeasonResp s.id sn = .ok r ∧ r.status ≠ 200) := by
  unfold episodeKind
  have hc : callGetEpsBySeason (oracleGw o) s.id sn st =
      (o.epsBySeasonResp s.id sn,
       ⟨st.env, st.tr ++ [Call.getEpsBySeason s.id sn (o.epsBySeasonResp s.id sn)]⟩) := rfl
  rw [hc]
  cases hr : o.epsBySeasonResp s.id sn with
  | error e => exact Or.inl rfl
  | ok resp =>
    dsimp only
    by_cases hst : resp.status ≠ 200
    · rw [if_pos hst]
      exact Or.inr ⟨rfl, resp, rfl, hst⟩
    · rw [if_neg hst]
      cases hf : resp.body.find? (fun e => some e.episodeNumber = en) with
      | none => exact Or.inl rfl
      | some target =>
        dsimp only
        split_ifs with hmon
        · cases hp : callPutEpisode (oracleGw o) target.id
              { target with monitored := false }
              (⟨st.env, st.tr ++ [Call.getEpsBySeason s.id sn (.ok resp)]⟩ : St Unit) with
          | mk r2 st2 =>
            cases r2 with
            | error e => exact Or.inl rfl
            | ok u => exact Or.inl (epDelFile_status ..)
        · exact Or.inl (epDelFile_status ..)

theorem jellyfinWebhook_oracle_status_cases (cfg : Cfg) (o : Oracle)
    (db : List (String × Nat)) (inp : WebhookInput) :
    ((jellyfinWebhook cfg (oracleGw o) db inp ()).1.status = 200 ∨
     (jellyfinWebhook cfg (oracleGw o) db inp ()).1.status = 400 ∨
     (jellyfinWebhook cfg (oracleGw o) db inp ()).1.status = 404) ∨
    ((jellyfinWebhook cfg (oracleGw o) db inp ()).1.status = 500 ∧
     payloadKind inp = some "Episode" ∧
     ∃ sid sn r, o.epsBySeasonResp sid sn = .ok r ∧ r.status ≠ 200) := by
  unfold jellyfinWebhook
  by_cases hb : inp.bodyBlank
  · rw [if_pos hb]
    exact Or.inl (Or.inr (Or.inl rfl))
  · rw [if_neg hb]
    cases hd : inp.decoded with
    | none => exact Or.inl (Or.inl rfl)
    | some b =>
      cases b with
      | falsy => exact Or.inl (Or.inl rfl)
      | truthyNonDict => exact Or.inl (Or.inl rfl)
      | obj nt item? =>
        dsimp only
        by_cases hnt : nt = some "ItemDeleted"
        · rw [if_neg (show ¬(nt ≠ some "ItemDeleted") by simpa using hnt)]
          cases hty : truthy (item?.getD emptyItem).itemType with
          | none => exact Or.inl (Or.inl rfl)
          | some ty =>
            have hpk : payloadKind inp = some ty := by
              unfold payloadKind payloadItem
              rw [if_neg hb, hd]
              dsimp only
              rw [if_pos hnt]
              simpa using hty
            dsimp only
            by_cases hM : ty = "Movie"
            · rw [if_pos hM]
              cases htm : truthy (itemTmdbId (item?.getD emptyItem)) with
              | none => exact Or.inl (Or.inr (Or.inl rfl))
              | some tm => exact Or.inl (Or.inl (movieBranch_status ..))
            · rw [if_neg hM]
              by_cases hTV : ty = "Series" ∨ ty = "Season" ∨ ty = "Episode"
              · rw [if_pos hTV]
                cases hres : resolveSeries (oracleGw o) db ty
                    (itemTvdbId (item?.getD emptyItem))
                    (itemSearchTitle (item?.getD emptyItem)) (⟨(), []⟩ : St Unit) with
                | mk sOpt st1 =>
                  cases sOpt with
                  | none => exact Or.inl (Or.inr (Or.inr rfl))
                  | some s =>
                    dsimp only
                    by_cases hS : ty = "Series"
                    · rw [if_pos hS]
                      exact Or.inl (Or.inl (seriesKind_status ..))
                    · rw [if_neg hS]
                      by_cases hSe : ty = "Season"
                      · rw [if_pos hSe]
                        exact Or.inl (Or.inl (seasonKind_status ..))
                      · rw [if_neg hSe]
                        have hE : ty = "Episode" := by
                          rcases hTV with h | h | h
                          · exact absurd h hS
                          · exact absurd h hSe
                          · exact h
                        rcases episodeKind_oracle_status o s
                            (item?.getD emptyItem).seasonNumber
                            (item?.getD emptyItem).episodeNumber st1 with h200 | ⟨h500, hr⟩
                        · exact Or.inl (Or.inl h200)
                        · refine Or.inr ⟨h500, ?_, s.id,
                            (item?.getD emptyItem).seasonNumber, hr⟩
                          rw [hpk, hE]
              · rw [if_neg hTV]
                exact Or.inl (Or.inl rfl)
        · rw [if_pos (show nt ≠ some "ItemDeleted" from hnt)]
          exact Or.inl (Or.inl rfl)

/-- Claim C1, counterexample.  The claim states a downstream catalog
failure never yields a 5xx, in particular not a failed season
episode-list fetch during Episode processing.  But with a gateway whose
per-season episode list answers 503 (shown explicitly), the Episode
notification of the spec's worked example is answered `'API error', 500`
(line 621 of the handler). -/
theorem episode_fetch_failure_returns_500_cex :
    oEps503.epsBySeasonResp 9 (some 2) = .ok ⟨503, []⟩ ∧
    (jellyfinWebhook ⟨1, 1⟩ (oracleGw oEps503) [] (inpOf itSampleEpisode) ()).1.status = 500 := by
  decide

/-- Claim C1 (amended): the endpoint's response is never in the 5xx range
except in exactly one situation — an Episode-kind notification whose
season episode-list fetch completed with a non-success HTTP status, which
is answered exactly 500.  Transport errors (raised exceptions) and every
other downstream failure are caught and answered with 2xx/4xx. -/
theorem webhook_5xx_only_episode_eps_fetch (cfg : Cfg) (o : Oracle)
    (db : List (String × Nat)) (inp : WebhookInput)
    (h5 : 500 ≤ (jellyfinWebhook cfg (oracleGw o) db inp ()).1.status) :
    (jellyfinWebhook cfg (oracleGw o) db inp ()).1.status = 500 ∧
    payloadKind inp = some "Episode" ∧
    ∃ sid sn r, o.epsBySeasonResp sid sn = .ok r ∧ r.status ≠ 200 := by
  rcases jellyfinWebhook_oracle_status_cases cfg o db inp with (h | h | h) | hok
  · rw [h] at h5
    omega
  · rw [h] at h5
    omega
  · rw [h] at h5
    omega
  · exact hok

/-- Claim C1, witness: the amended theorem applied at the 503 scenario. -/
theorem webhook_5xx_only_episode_eps_fetch_witness :
    (jellyfinWebhook ⟨1, 1⟩ (oracleGw oEps503) [] (inpOf itSampleEpisode) ()).1.status = 500 ∧
    payloadKind (inpOf itSampleEpisode) = some "Episode" ∧
    ∃ sid sn r, oEps503.epsBySeasonResp sid sn = .ok r ∧ r.status ≠ 200 :=
  webhook_5xx_only_episode_eps_fetch ⟨1, 1⟩ oEps503 [] (inpOf itSampleEpisode)
    (by decide)

/-! ## Claims C7, C9, C10 — the Smart season/series policy -/

theorem deleteFiles_oracle_ok (o : Oracle) (fs : List EpisodeFile) (st : St Unit)
    (h : ∀ f ∈ fs, ∃ hr, o.delFileResp f.id = .ok hr) :
    deleteFiles (oracleGw o) fs st =
      (⟨(), st.tr ++ fs.map (fun f => Call.delFile f.id (o.delFileResp f.id))⟩, false) := by
  induction fs generalizing st with
  | nil => simp [deleteFiles]
  | cons f rest ih =>
    rcases h f (by simp) with ⟨hr, hok⟩
    simp only [deleteFiles]
    have hc : callDelFile (oracleGw o) f.id st =
        (o.delFileResp f.id, ⟨(), st.tr ++ [Call.delFile f.id (o.delFileResp f.id)]⟩) := rfl
    rw [hc, hok]
    dsimp only
    rw [ih (⟨(), st.tr ++ [Call.delFile f.id (Except.ok hr)]⟩ : St Unit)
      (fun g hg => h g (by simp [hg]))]
    simp [hok]

theorem isSeasonFullyDownloaded_oracle (o : Oracle) (sid : Nat) (sn : Option Int)
    (st : St Unit) :
    isSeasonFullyDownloaded (oracleGw o) sid sn st =
      ((match o.epsBySeasonResp sid sn with
        | .error _ => false
        | .ok resp =>
          if resp.status ≠ 200 then false
          else resp.body.all (fun ep => !ep.monitored || ep.hasFile)),
       ⟨(), st.tr ++ [Call.getEpsBySeason sid sn (o.epsBySeasonResp sid sn)]⟩) := by
  unfold isSeasonFullyDownloaded
  have hc : callGetEpsBySeason (oracleGw o) sid sn st =
      (o.epsBySeasonResp sid sn,
       ⟨(), st.tr ++ [Call.getEpsBySeason sid sn (o.epsBySeasonResp sid sn)]⟩) := rfl
  rw [hc]
  cases hr : o.epsBySeasonResp sid sn with
  | error e => rfl
  | ok resp =>
    dsimp only
    split_ifs <;> rfl

theorem isSeriesFullyDownloaded_oracle (o : Oracle) (sid : Nat) (st : St Unit) :
    isSeriesFullyDownloaded (oracleGw o) sid st =
      ((match o.epsBySeriesResp sid with
        | .error _ => false
        | .ok resp =>
          if resp.status ≠ 200 then false
          else resp.body.all (fun ep => !ep.monitored || ep.hasFile)),
       ⟨(), st.tr ++ [Call.getEpsBySeries sid (o.epsBySeriesResp sid)]⟩) := by
  unfold isSeriesFullyDownloaded
  have hc : callGetEpsBySeries (oracleGw o) sid st =
      (o.epsBySeriesResp sid,
       ⟨(), st.tr ++ [Call.getEpsBySeries sid (o.epsBySeriesResp sid)]⟩) := rfl
  rw [hc]
  cases hr : o.epsBySeriesResp sid with
  | error e => rfl
  | ok resp =>
    dsimp only
    split_ifs <;> rfl

theorem season_probe_failed_false (o : Oracle) (sid : Nat) (sn : Option Int)
    (st : St Unit) (hbad : rqFailed (o.epsBySeasonResp sid sn) = true) :
    (isSeasonFullyDownloaded (oracleGw o) sid sn st).1 = false := by
  rw [isSeasonFullyDownloaded_oracle]
  cases hr : o.epsBySeasonResp sid sn with
  | error e => rfl
  | ok resp =>
    rw [hr] at hbad
    unfold rqFailed at hbad
    dsimp only
    rw [if_pos (by simpa using hbad)]

theorem series_probe_failed_false (o : Oracle) (sid : Nat) (st : St Unit)
    (hbad : rqFailed (o.epsBySeriesResp sid) = true) :
    (isSeriesFullyDownloaded (oracleGw o) sid st).1 = false := by
  rw [isSeriesFullyDownloaded_oracle]
  cases hr : o.epsBySeriesResp sid with
  | error e => rfl
  | ok resp =>
    rw [hr] at hbad
    unfold rqFailed at hbad
    dsimp only
    rw [if_pos (by simpa using hbad)]

/-- Appending one series-safe call keeps a trace sweep going. -/
theorem mem_snoc_safe {tr0 : List Call} {c d : Call}
    (hc : c ∈ tr0 ++ [d]) (hd : seriesSafeCall d) :
    c ∈ tr0 ∨ seriesSafeCall c := by
  rcases List.mem_append.mp hc with h | h
  · exact Or.inl h
  · rw [List.mem_singleton] at h
    subst h
    exact Or.inr hd

/-- The episode-file deletion loop only issues `delFile` calls, on every
path (success, raised delete, anything). -/
theorem deleteFiles_oracle_calls (o : Oracle) (fs : List EpisodeFile)
    (st : St Unit) :
    ∀ c ∈ (deleteFiles (oracleGw o) fs st).1.tr,
      c ∈ st.tr ∨ seriesSafeCall c := by
  induction fs generalizing st with
  | nil => intro c hc; exact Or.inl hc
  | cons f rest ih =>
    intro c hc
    simp only [deleteFiles] at hc
    rw [show callDelFile (oracleGw o) f.id st =
        (o.delFileResp f.id,
         ⟨(), st.tr ++ [Call.delFile f.id (o.delFileResp f.id)]⟩) from rfl] at hc
    cases hr : o.delFileResp f.id with
    | error e =>
      rw [hr] at hc
      dsimp only at hc
      exact mem_snoc_safe hc ⟨rfl, rfl⟩
    | ok u =>
      rw [hr] at hc
      dsimp only at hc
      rcases ih _ c hc with h | h
      · exact mem_snoc_safe h ⟨rfl, rfl⟩
      · exact Or.inr h

/-- The Movie branch only issues `getMovie` and `delMovie` calls. -/
theorem movieBranch_oracle_calls (o : Oracle) (tm : String) (st : St Unit) :
    ∀ c ∈ (movieBranch (oracleGw o) tm st).2.tr,
      c ∈ st.tr ∨ seriesSafeCall c := by
  intro c hc
  unfold movieBranch at hc
  rw [show callGetMovie (oracleGw o) tm st =
      (o.movieResp tm,
       ⟨(), st.tr ++ [Call.getMovie tm (o.movieResp tm)]⟩) from rfl] at hc
  cases hr : o.movieResp tm with
  | error e =>
    rw [hr] at hc
    dsimp only at hc
    exact mem_snoc_safe hc ⟨rfl, rfl⟩
  | ok resp =>
    rw [hr] at hc
    dsimp only at hc
    split at hc
    · exact mem_snoc_safe hc ⟨rfl, rfl⟩
    · cases hb : resp.body with
      | nil =>
        rw [hb] at hc
        dsimp only at hc
        exact mem_snoc_safe hc ⟨rfl, rfl⟩
      | cons m ms =>
        rw [hb] at hc
        dsimp only at hc
        rw [show callDelMovie (oracleGw o) m.id
            ⟨(), st.tr ++ [Call.getMovie tm (Except.ok resp)]⟩ =
            (o.delMovieResp m.id,
             ⟨(), (st.tr ++ [Call.getMovie tm (Except.ok resp)]) ++
               [Call.delMovie m.id (o.delMovieResp m.id)]⟩) from rfl] at hc
        dsimp only at hc
        rcases mem_snoc_safe hc ⟨rfl, rfl⟩ with h | h
        · exact mem_snoc_safe h ⟨rfl, rfl⟩
        · exact Or.inr h

/-- The episode-map lookup only issues a `getSeriesById` call. -/
theorem findSeriesViaMap_oracle_calls (o : Oracle) (db : List (String × Nat))
    (t : String) (st : St Unit) :
    ∀ c ∈ (findSeriesViaMap (oracleGw o) db t st).2.tr,
      c ∈ st.tr ∨ seriesSafeCall c := by
  intro c hc
  unfold findSeriesViaMap at hc
  cases hm : (db.find? (fun p => p.1 = t)).map (fun p => p.2) with
  | none =>
    rw [hm] at hc
    exact Or.inl hc
  | some sid =>
    rw [hm] at hc
    dsimp only at hc
    rw [show callGetSeriesById (oracleGw o) sid st =
        (o.seriesByIdResp sid,
         ⟨(), st.tr ++ [Call.getSeriesById sid (o.seriesByIdResp sid)]⟩) from rfl] at hc
    cases hr : o.seriesByIdResp sid with
    | error e =>
      rw [hr] at hc
      dsimp only at hc
      exact mem_snoc_safe hc ⟨rfl, rfl⟩
    | ok resp =>
      rw [hr] at hc
      dsimp only at hc
      split at hc <;> exact mem_snoc_safe hc ⟨rfl, rfl⟩

/-- The title scan only issues a `getSeriesList` call. -/
theorem findSeriesByTitle_oracle_calls (o : Oracle) (t : String)
    (st : St Unit) :
    ∀ c ∈ (findSeriesByTitle (oracleGw o) t st).2.tr,
      c ∈ st.tr ∨ seriesSafeCall c := by
  intro c hc
  unfold findSeriesByTitle at hc
  split at hc
  · exact Or.inl hc
  · rw [show callGetSeriesList (oracleGw o) st =
        (o.seriesListResp,
         ⟨(), st.tr ++ [Call.getSeriesList o.seriesListResp]⟩) from rfl] at hc
    cases hr : o.seriesListResp with
    | error e =>
      rw [hr] at hc
      dsimp only at hc
      exact mem_snoc_safe hc ⟨rfl, rfl⟩
    | ok resp =>
      rw [hr] at hc
      dsimp only at hc
      split at hc <;> exact mem_snoc_safe hc ⟨rfl, rfl⟩

/-- `find_series` only issues lookups (`getSeriesByTvdb`,
`getSeriesList`). -/
theorem findSeries_oracle_calls (o : Oracle) (tv : Option String)
    (t : String) (st : St Unit) :
    ∀ c ∈ (findSeries (oracleGw o) tv t st).2.tr,
      c ∈ st.tr ∨ seriesSafeCall c := by
  intro c hc
  unfold findSeries at hc
  cases ht : truthy tv with
  | none =>
    rw [ht] at hc
    dsimp only at hc
    exact findSeriesByTitle_oracle_calls o t st c hc
  | some tvv =>
    rw [ht] at hc
    dsimp only at hc
    rw [show callGetSeriesByTvdb (oracleGw o) tvv st =
        (o.seriesByTvdbResp tvv,
         ⟨(), st.tr ++ [Call.getSeriesByTvdb tvv (o.seriesByTvdbResp tvv)]⟩) from rfl] at hc
    cases hr : o.seriesByTvdbResp tvv with
    | error e =>
      rw [hr] at hc
      dsimp only at hc
      exact mem_snoc_safe hc ⟨rfl, rfl⟩
    | ok resp =>
      rw [hr] at hc
      dsimp only at hc
      split at hc
      · exact mem_snoc_safe hc ⟨rfl, rfl⟩
      · rcases findSeriesByTitle_oracle_calls o t _ c hc with h | h
        · exact mem_snoc_safe h ⟨rfl, rfl⟩
        · exact Or.inr h

/-- The Episode fast path only issues lookups. -/
theorem mapFirst_oracle_calls (o : Oracle) (db : List (String × Nat))
    (ty : String) (tv : Option String) (st : St Unit) :
    ∀ c ∈ (mapFirst (oracleGw o) db ty tv st).2.tr,
      c ∈ st.tr ∨ seriesSafeCall c := by
  intro c hc
  unfold mapFirst at hc
  split at hc
  · cases ht : truthy tv with
    | none =>
      rw [ht] at hc
      exact Or.inl hc
    | some t =>
      rw [ht] at hc
      dsimp only at hc
      exact findSeriesViaMap_oracle_calls o db t st c hc
  · exact Or.inl hc

/-- The whole series-resolution step only issues lookups. -/
theorem resolveSeries_oracle_calls (o : Oracle) (db : List (String × Nat))
    (ty : String) (tv : Option String) (title : String) (st : St Unit) :
    ∀ c ∈ (resolveSeries (oracleGw o) db ty tv title st).2.tr,
      c ∈ st.tr ∨ seriesSafeCall c := by
  intro c hc
  unfold resolveSeries at hc
  cases hm : mapFirst (oracleGw o) db ty tv st with
  | mk sOpt st1 =>
    rw [hm] at hc
    have h1 : ∀ d ∈ st1.tr, d ∈ st.tr ∨ seriesSafeCall d := by
      intro d hd
      have hmf := mapFirst_oracle_calls o db ty tv st d
      rw [hm] at hmf
      exact hmf hd
    cases sOpt with
    | some s =>
      dsimp only at hc
      exact h1 c hc
    | none =>
      dsimp only at hc
      rcases findSeries_oracle_calls o (if ty = "Series" then tv else none)
          title st1 c hc with h | h
      · exact h1 c h
      · exact Or.inr h

/-- The episode-file delete tail only issues a `delFile` call. -/
theorem epDelFile_oracle_calls (o : Oracle) (t : Episode) (st : St Unit) :
    ∀ c ∈ (epDelFile (oracleGw o) t st).2.tr,
      c ∈ st.tr ∨ seriesSafeCall c := by
  intro c hc
  unfold epDelFile at hc
  split at hc
  · rw [show callDelFile (oracleGw o) t.episodeFileId st =
        (o.delFileResp t.episodeFileId,
         ⟨(), st.tr ++ [Call.delFile t.episodeFileId
           (o.delFileResp t.episodeFileId)]⟩) from rfl] at hc
    dsimp only at hc
    exact mem_snoc_safe hc ⟨rfl, rfl⟩
  · exact Or.inl hc

/-- Episode-kind processing never removes a series or `PUT`s one: its
only calls are the season episode-list fetch, a `putEpisode` unmonitor
and a `delFile`. -/
theorem episodeKind_oracle_calls (o : Oracle) (s : Series) (sn en : Option Int)
    (st : St Unit) :
    ∀ c ∈ (episodeKind (oracleGw o) s sn en st).2.tr,
      c ∈ st.tr ∨ seriesSafeCall c := by
  intro c hc
  unfold episodeKind at hc
  rw [show callGetEpsBySeason (oracleGw o) s.id sn st =
      (o.epsBySeasonResp s.id sn,
       ⟨(), st.tr ++ [Call.getEpsBySeason s.id sn
         (o.epsBySeasonResp s.id sn)]⟩) from rfl] at hc
  cases hr : o.epsBySeasonResp s.id sn with
  | error e =>
    rw [hr] at hc
    dsimp only at hc
    exact mem_snoc_safe hc ⟨rfl, rfl⟩
  | ok resp =>
    rw [hr] at hc
    dsimp only at hc
    split at hc
    · exact mem_snoc_safe hc ⟨rfl, rfl⟩
    · cases hf : resp.body.find? (fun e => some e.episodeNumber = en) with
      | none =>
        rw [hf] at hc
        dsimp only at hc
        exact mem_snoc_safe hc ⟨rfl, rfl⟩
      | some target =>
        rw [hf] at hc
        dsimp only at hc
        split at hc
        · rw [show callPutEpisode (oracleGw o) target.id
              { target with monitored := false }
              ⟨(), st.tr ++ [Call.getEpsBySeason s.id sn (Except.ok resp)]⟩ =
              (o.putEpisodeResp target.id,
               ⟨(), (st.tr ++ [Call.getEpsBySeason s.id sn (Except.ok resp)]) ++
                 [Call.putEpisode target.id { target with monitored := false }
                   (o.putEpisodeResp target.id)]⟩) from rfl] at hc
          cases hp : o.putEpisodeResp target.id with
          | error e =>
            rw [hp] at hc
            dsimp only at hc
            rcases mem_snoc_safe hc ⟨rfl, rfl⟩ with h | h
            · exact mem_snoc_safe h ⟨rfl, rfl⟩
            · exact Or.inr h
          | ok u =>
            rw [hp] at hc
            dsimp only at hc
            rcases epDelFile_oracle_calls o target _ c hc with h | h
            · rcases mem_snoc_safe h ⟨rfl, rfl⟩ with h2 | h2
              · exact mem_snoc_safe h2 ⟨rfl, rfl⟩
              · exact Or.inr h2
            · exact Or.inr h
        · rcases epDelFile_oracle_calls o target _ c hc with h | h
          · exact mem_snoc_safe h ⟨rfl, rfl⟩
          · exact Or.inr h

/-- Series-kind Smart processing with a failing episode-list probe never
issues a series removal or series update: the conservative files-only
branch is taken. -/
theorem seriesKind3_probe_down_calls (o : Oracle) (s : Series) (st : St Unit)
    (hbad : rqFailed (o.epsBySeriesResp s.id) = true) :
    ∀ c ∈ (seriesKind 3 (oracleGw o) s st).2.tr,
      c ∈ st.tr ∨ seriesSafeCall c := by
  intro c hc
  unfold seriesKind at hc
  rw [show callGetFiles (oracleGw o) s.id st =
      (o.filesResp s.id,
       ⟨(), st.tr ++ [Call.getFiles s.id (o.filesResp s.id)]⟩) from rfl] at hc
  cases hr : o.filesResp s.id with
  | error e =>
    rw [hr] at hc
    dsimp only at hc
    exact mem_snoc_safe hc ⟨rfl, rfl⟩
  | ok fresp =>
    rw [hr] at hc
    dsimp only at hc
    cases hd : deleteFiles (oracleGw o)
        (if fresp.status = 200 then fresp.body else [])
        ⟨(), st.tr ++ [Call.getFiles s.id (Except.ok fresp)]⟩ with
    | mk st2 ab =>
      rw [hd] at hc
      have htr2 : ∀ d ∈ st2.tr,
          d ∈ st.tr ∨ seriesSafeCall d := by
        intro d hdm
        have hdf := deleteFiles_oracle_calls o
            (if fresp.status = 200 then fresp.body else [])
            ⟨(), st.tr ++ [Call.getFiles s.id (Except.ok fresp)]⟩ d
        rw [hd] at hdf
        rcases hdf hdm with h | h
        · exact mem_snoc_safe h ⟨rfl, rfl⟩
        · exact Or.inr h
      cases ab with
      | true =>
        dsimp only at hc
        exact htr2 c hc
      | false =>
        dsimp only at hc
        rw [if_neg (by decide : ¬(3 : Nat) = 1),
          if_neg (by decide : ¬(3 : Nat) = 2),
          if_pos (rfl : (3 : Nat) = 3)] at hc
        rw [isSeriesFullyDownloaded_oracle] at hc
        dsimp only at hc
        have hfalse : (match o.epsBySeriesResp s.id with
            | .error _ => false
            | .ok resp =>
              if resp.status ≠ 200 then false
              else resp.body.all (fun ep => !ep.monitored || ep.hasFile)) = false := by
          cases hp : o.epsBySeriesResp s.id with
          | error e => rfl
          | ok resp =>
            rw [hp] at hbad
            unfold rqFailed at hbad
            dsimp only
            rw [if_pos (by simpa using hbad)]
        rw [hfalse] at hc
        split at hc
        · next hcond => exact absurd hcond.2 (by decide)
        · rcases mem_snoc_safe hc ⟨rfl, rfl⟩ with h | h
          · exact htr2 c h
          · exact Or.inr h

/-- Season-kind Smart processing with a failing episode-list probe never
issues a series removal or series update (the unmonitor `PUT` is
skipped). -/
theorem seasonKind3_probe_down_calls (o : Oracle) (s : Series)
    (sn : Option Int) (st : St Unit)
    (hbad : rqFailed (o.epsBySeasonResp s.id sn) = true) :
    ∀ c ∈ (seasonKind 3 (oracleGw o) s sn st).2.tr,
      c ∈ st.tr ∨ seriesSafeCall c := by
  intro c hc
  unfold seasonKind at hc
  rw [show callGetFiles (oracleGw o) s.id st =
      (o.filesResp s.id,
       ⟨(), st.tr ++ [Call.getFiles s.id (o.filesResp s.id)]⟩) from rfl] at hc
  cases hr : o.filesResp s.id with
  | error e =>
    rw [hr] at hc
    dsimp only at hc
    exact mem_snoc_safe hc ⟨rfl, rfl⟩
  | ok fresp =>
    rw [hr] at hc
    dsimp only at hc
    cases hd : deleteFiles (oracleGw o)
        (if fresp.status = 200 then
          fresp.body.filter (fun f => some f.seasonNumber = sn)
        else [])
        ⟨(), st.tr ++ [Call.getFiles s.id (Except.ok fresp)]⟩ with
    | mk st2 ab =>
      rw [hd] at hc
      have htr2 : ∀ d ∈ st2.tr,
          d ∈ st.tr ∨ seriesSafeCall d := by
        intro d hdm
        have hdf := deleteFiles_oracle_calls o
            (if fresp.status = 200 then
              fresp.body.filter (fun f => some f.seasonNumber = sn)
            else [])
            ⟨(), st.tr ++ [Call.getFiles s.id (Except.ok fresp)]⟩ d
        rw [hd] at hdf
        rcases hdf hdm with h | h
        · exact mem_snoc_safe h ⟨rfl, rfl⟩
        · exact Or.inr h
      cases ab with
      | true =>
        dsimp only at hc
        exact htr2 c hc
      | false =>
        dsimp only at hc
        rw [if_neg (by decide : ¬(3 : Nat) = 1),
          if_neg (by decide : ¬(3 : Nat) = 2),
          if_pos (rfl : (3 : Nat) = 3)] at hc
        rw [isSeasonFullyDownloaded_oracle] at hc
        dsimp only at hc
        have hfalse : (match o.epsBySeasonResp s.id sn with
            | .error _ => false
            | .ok resp =>
              if resp.status ≠ 200 then false
              else resp.body.all (fun ep => !ep.monitored || ep.hasFile)) = false := by
          cases hp : o.epsBySeasonResp s.id sn with
          | error e => rfl
          | ok resp =>
            rw [hp] at hbad
            unfold rqFailed at hbad
            dsimp only
            rw [if_pos (by simpa using hbad)]
        rw [hfalse] at hc
        split at hc
        · next hcond => exact absurd hcond (by decide)
        · rcases mem_snoc_safe hc ⟨rfl, rfl⟩ with h | h
          · exact htr2 c h
          · exact Or.inr h

/-- **C9.** When the episode-list fetch behind the Smart-mode
completeness probes fails (raised exception or non-200 status), both
`is_series_fully_downloaded` and `is_season_fully_downloaded` return
`False`; consequently a webhook request processed with
`SERIES_DELETION_MODE = SEASON_DELETION_MODE = 3` issues no series
removal (`DELETE /series/{id}`) and no season unmonitoring
(`PUT /series/{id}`): the gateway failure silently selects the
conservative files-only branch instead of surfacing an error. -/
theorem smart_probe_failure_conservative (cfg : Cfg) (o : Oracle)
    (db : List (String × Nat)) (inp : WebhookInput)
    (hm3 : cfg.seriesMode = 3) (hn3 : cfg.seasonMode = 3)
    (hbadSeries : ∀ sid, rqFailed (o.epsBySeriesResp sid) = true)
    (hbadSeason : ∀ sid sn, rqFailed (o.epsBySeasonResp sid sn) = true) :
    (∀ sid st, (isSeriesFullyDownloaded (oracleGw o) sid st).1 = false) ∧
    (∀ sid sn st, (isSeasonFullyDownloaded (oracleGw o) sid sn st).1 = false) ∧
    ∀ c ∈ (jellyfinWebhook cfg (oracleGw o) db inp ()).2.tr,
      c.isDelSeries = false ∧ c.isPutSeries = false := by
  refine ⟨fun sid st => series_probe_failed_false o sid st (hbadSeries sid),
    fun sid sn st => season_probe_failed_false o sid sn st (hbadSeason sid sn),
    ?_⟩
  intro c hc
  unfold jellyfinWebhook at hc
  by_cases hb : inp.bodyBlank
  · rw [if_pos hb] at hc
    simp at hc
  · rw [if_neg hb] at hc
    cases hd : inp.decoded with
    | none =>
      rw [hd] at hc
      simp at hc
    | some b =>
      rw [hd] at hc
      cases b with
      | falsy => simp at hc
      | truthyNonDict => simp at hc
      | obj nt item? =>
        dsimp only at hc
        by_cases hnt : nt = some "ItemDeleted"
        · rw [if_neg (show ¬(nt ≠ some "ItemDeleted") by simpa using hnt)] at hc
          cases hty : truthy (item?.getD emptyItem).itemType with
          | none =>
            rw [hty] at hc
            simp at hc
          | some ty =>
            rw [hty] at hc
            dsimp only at hc
            by_cases hM : ty = "Movie"
            · rw [if_pos hM] at hc
              cases htm : truthy (itemTmdbId (item?.getD emptyItem)) with
              | none =>
                rw [htm] at hc
                simp at hc
              | some tm =>
                rw [htm] at hc
                dsimp only at hc
                rcases movieBranch_oracle_calls o tm ⟨(), []⟩ c hc with h | h
                · simp at h
                · exact h
            · rw [if_neg hM] at hc
              by_cases hTV : ty = "Series" ∨ ty = "Season" ∨ ty = "Episode"
              · rw [if_pos hTV] at hc
                cases hres : resolveSeries (oracleGw o) db ty
                    (itemTvdbId (item?.getD emptyItem))
                    (itemSearchTitle (item?.getD emptyItem))
                    (⟨(), []⟩ : St Unit) with
                | mk sOpt st1 =>
                  rw [hres] at hc
                  have h1 : ∀ d ∈ st1.tr, seriesSafeCall d := by
                    intro d hdm
                    have hrs := resolveSeries_oracle_calls o db ty
                        (itemTvdbId (item?.getD emptyItem))
                        (itemSearchTitle (item?.getD emptyItem))
                        (⟨(), []⟩ : St Unit) d
                    rw [hres] at hrs
                    rcases hrs hdm with h | h
                    · simp at h
                    · exact h
                  cases sOpt with
                  | none =>
                    dsimp only at hc
                    exact h1 c hc
                  | some s =>
                    dsimp only at hc
                    by_cases hS : ty = "Series"
                    · rw [if_pos hS, hm3] at hc
                      rcases seriesKind3_probe_down_calls o s st1
                          (hbadSeries s.id) c hc with h | h
                      · exact h1 c h
                      · exact h
                    · rw [if_neg hS] at hc
                      by_cases hSe : ty = "Season"
                      · rw [if_pos hSe, hn3] at hc
                        rcases seasonKind3_probe_down_calls o s
                            (item?.getD emptyItem).seasonNumber st1
                            (hbadSeason s.id (item?.getD emptyItem).seasonNumber)
                            c hc with h | h
                        · exact h1 c h
                        · exact h
                      · rw [if_neg hSe] at hc
                        rcases episodeKind_oracle_calls o s
                            (item?.getD emptyItem).seasonNumber
                            (item?.getD emptyItem).episodeNumber st1 c hc with h | h
                        · exact h1 c h
                        · exact h
              · rw [if_neg hTV] at hc
                simp at hc
        · rw [if_pos (show nt ≠ some "ItemDeleted" from hnt)] at hc
          simp at hc

/-- Claim C9, witness: with every episode-list endpoint raising, a
Season deletion for `Show A` under Smart/Smart settings yields both
probe checks `false` and a trace free of series removals and updates. -/
theorem smart_probe_failure_conservative_witness :
    (∀ sid st, (isSeriesFullyDownloaded (oracleGw oProbeDown) sid st).1 = false) ∧
    (∀ sid sn st, (isSeasonFullyDownloaded (oracleGw oProbeDown) sid sn st).1 = false) ∧
    ∀ c ∈ (jellyfinWebhook ⟨3, 3⟩ (oracleGw oProbeDown) [] (inpOf itSeason2) ()).2.tr,
      c.isDelSeries = false ∧ c.isPutSeries = false :=
  smart_probe_failure_conservative ⟨3, 3⟩ oProbeDown [] (inpOf itSeason2)
    rfl rfl (fun _ => rfl) (fun _ _ => rfl)

/-- When the in-place season loop changed something, the unmonitor block
`PUT`s the whole series with the season flipped. -/
theorem unmonitorSeason_oracle_updated (o : Oracle) (s : Series)
    (sn : Option Int) (st : St Unit) (hupd : seasonUpdated s sn = true) :
    (unmonitorSeason (oracleGw o) s sn st).1 =
      ⟨(), st.tr ++ [Call.putSeries s.id (flipSeason s sn)
        (o.putSeriesResp s.id)]⟩ := by
  unfold unmonitorSeason
  rw [if_pos hupd]
  rw [show callPutSeries (oracleGw o) s.id (flipSeason s sn) st =
      (o.putSeriesResp s.id,
       ⟨(), st.tr ++ [Call.putSeries s.id (flipSeason s sn)
         (o.putSeriesResp s.id)]⟩) from rfl]
  cases o.putSeriesResp s.id <;> rfl

/-- The full call sequence of Season-kind Smart processing when the files
fetch and the file deletes succeed and the probe answers 200: fetch the
files, delete the season's, probe the season, and `PUT` the unmonitored
series exactly when no monitored episode lacks a file. -/
theorem seasonKind3_oracle_eq (o : Oracle) (s : Series) (sn : Option Int)
    (st : St Unit) (fresp : HttpResp (List EpisodeFile)) (eps : List Episode)
    (hfiles : o.filesResp s.id = .ok fresp)
    (hdel : ∀ f ∈ seasonFilesOf fresp sn, ∃ hr, o.delFileResp f.id = .ok hr)
    (hprobe : o.epsBySeasonResp s.id sn = .ok ⟨200, eps⟩)
    (hupd : seasonUpdated s sn = true) :
    (seasonKind 3 (oracleGw o) s sn st).2.tr =
      st.tr ++ [Call.getFiles s.id (.ok fresp)]
        ++ (seasonFilesOf fresp sn).map
             (fun f => Call.delFile f.id (o.delFileResp f.id))
        ++ [Call.getEpsBySeason s.id sn (.ok ⟨200, eps⟩)]
        ++ (if eps.all (fun ep => !ep.monitored || ep.hasFile) then
              [Call.putSeries s.id (flipSeason s sn) (o.putSeriesResp s.id)]
            else []) := by
  unfold seasonKind
  rw [show callGetFiles (oracleGw o) s.id st =
      (o.filesResp s.id,
       ⟨(), st.tr ++ [Call.getFiles s.id (o.filesResp s.id)]⟩) from rfl,
    hfiles]
  dsimp only
  rw [show (if fresp.status = 200 then
        fresp.body.filter (fun f => some f.seasonNumber = sn)
      else []) = seasonFilesOf fresp sn from rfl]
  rw [deleteFiles_oracle_ok o (seasonFilesOf fresp sn) _ hdel]
  dsimp only
  rw [if_neg (by decide : ¬(3 : Nat) = 1),
    if_neg (by decide : ¬(3 : Nat) = 2),
    if_pos (rfl : (3 : Nat) = 3)]
  rw [isSeasonFullyDownloaded_oracle]
  dsimp only
  rw [hprobe]
  dsimp only
  rw [if_neg (by decide : ¬(200 : Nat) ≠ 200)]
  cases hall : eps.all (fun ep => !ep.monitored || ep.hasFile) with
  | false => simp
  | true =>
    rw [unmonitorSeason_oracle_updated o s sn _ hupd]
    simp

/-- **C7** (amended).  Season-kind deletion under Smart mode
(`SEASON_DELETION_MODE = 3`) deletes the season's files FIRST and only
then runs the completeness check, which re-fetches the season's episode
list: against the fetched (post-deletion) list, the series is `PUT` back
with the season's `monitored` flags flipped exactly when no monitored
episode lacks a file, and when some monitored episode lacks its file no
series update is issued, so monitoring is left unchanged.  As originally
stated — conditioning on the season's pre-deletion state — the claim is
false of the program: the request's own deletes falsify the probe before
it runs (see the counterexample). -/
theorem season_smart_unmonitor_iff_complete (o : Oracle) (s : Series)
    (sn : Option Int) (st : St Unit) (fresp : HttpResp (List EpisodeFile))
    (eps : List Episode)
    (hfiles : o.filesResp s.id = .ok fresp)
    (hdel : ∀ f ∈ seasonFilesOf fresp sn, ∃ hr, o.delFileResp f.id = .ok hr)
    (hprobe : o.epsBySeasonResp s.id sn = .ok ⟨200, eps⟩)
    (hupd : seasonUpdated s sn = true) :
    (∀ f ∈ seasonFilesOf fresp sn,
       Call.delFile f.id (o.delFileResp f.id) ∈
         (seasonKind 3 (oracleGw o) s sn st).2.tr) ∧
    ((∀ ep ∈ eps, ep.monitored = true → ep.hasFile = true) →
       Call.putSeries s.id (flipSeason s sn) (o.putSeriesResp s.id) ∈
         (seasonKind 3 (oracleGw o) s sn st).2.tr) ∧
    ((∃ ep ∈ eps, ep.monitored = true ∧ ep.hasFile = false) →
       ∀ c ∈ (seasonKind 3 (oracleGw o) s sn st).2.tr,
         c ∈ st.tr ∨ c.isPutSeries = false) := by
  rw [seasonKind3_oracle_eq o s sn st fresp eps hfiles hdel hprobe hupd]
  refine ⟨?_, ?_, ?_⟩
  · intro f hf
    have hm : Call.delFile f.id (o.delFileResp f.id) ∈
        (seasonFilesOf fresp sn).map
          (fun f => Call.delFile f.id (o.delFileResp f.id)) :=
      List.mem_map.mpr ⟨f, hf, rfl⟩
    simp only [List.append_assoc, List.mem_append]
    tauto
  · intro h
    have hall : eps.all (fun ep => !ep.monitored || ep.hasFile) = true := by
      rw [List.all_eq_true]
      intro ep hep
      cases hm : ep.monitored with
      | false => simp
      | true => simp [h ep hep hm]
    rw [hall]
    simp
  · rintro ⟨ep, hep, hmon, hnof⟩ c hc
    have hall : eps.all (fun ep => !ep.monitored || ep.hasFile) = false := by
      rw [List.all_eq_false]
      exact ⟨ep, hep, by simp [hmon, hnof]⟩
    rw [hall] at hc
    rw [if_neg (by decide : ¬(false = true))] at hc
    simp only [List.append_nil, List.append_assoc, List.mem_append,
      List.mem_singleton, List.mem_map] at hc
    rcases hc with h | h | ⟨f, hf, rfl⟩ | h
    · exact Or.inl h
    · subst h
      exact Or.inr rfl
    · exact Or.inr rfl
    · subst h
      exact Or.inr rfl

/-- Claim C7, witness: the amended theorem at a probe response consistent
with the handler's sequencing — season 2's one file is deleted, the
re-fetched list reports the monitored episode without it, and no series
update is issued (the fully-downloaded branch is vacuous here, as it is
against any consistent catalog once a monitored episode's file is
deleted). -/
theorem season_smart_unmonitor_iff_complete_witness :
    (∀ f ∈ seasonFilesOf ⟨200, [⟨51, 9, 2⟩]⟩ (some 2),
       Call.delFile f.id (oSeasonProbe.delFileResp f.id) ∈
         (seasonKind 3 (oracleGw oSeasonProbe) sShowA (some 2) ⟨(), []⟩).2.tr) ∧
    ((∀ ep ∈ [epS2E5Gone], ep.monitored = true → ep.hasFile = true) →
       Call.putSeries sShowA.id (flipSeason sShowA (some 2))
           (oSeasonProbe.putSeriesResp sShowA.id) ∈
         (seasonKind 3 (oracleGw oSeasonProbe) sShowA (some 2) ⟨(), []⟩).2.tr) ∧
    ((∃ ep ∈ [epS2E5Gone], ep.monitored = true ∧ ep.hasFile = false) →
       ∀ c ∈ (seasonKind 3 (oracleGw oSeasonProbe) sShowA (some 2) ⟨(), []⟩).2.tr,
         c ∈ (⟨(), []⟩ : St Unit).tr ∨ c.isPutSeries = false) :=
  season_smart_unmonitor_iff_complete oSeasonProbe sShowA (some 2) ⟨(), []⟩
    ⟨200, [⟨51, 9, 2⟩]⟩ [epS2E5Gone] rfl
    (fun f hf => ⟨⟨200, ()⟩, rfl⟩) rfl (by decide)

/-- Claim C7, counterexample.  The handler deletes the season's files
BEFORE the Smart completeness probe, and the probe re-fetches the
episode list.  Against the live synchronous catalog `wSeason2Full` —
where every monitored episode of season 2 has its file when the request
arrives — the Season deletion deletes the file, the probe then sees the
monitored episode without it, and no series update is ever issued: the
season comes out with its files gone and its monitoring unchanged, so
the claim's fully-downloaded branch never fires. -/
theorem season_smart_skips_complete_season_cex :
    (wSeason2Full.episodes.filter
      (fun e => e.seriesId = 9 && some e.seasonNumber = some (2 : Int))).all
      (fun e => !e.monitored || e.hasFile) = true ∧
    (jellyfinWebhook ⟨1, 3⟩ worldGw [] (inpOf itSeason2) wSeason2Full).2.tr.all
      (fun c => !c.isPutSeries) = true ∧
    (jellyfinWebhook ⟨1, 3⟩ worldGw [] (inpOf itSeason2) wSeason2Full).2.env.series =
      [sShowA] ∧
    (jellyfinWebhook ⟨1, 3⟩ worldGw [] (inpOf itSeason2) wSeason2Full).2.env.files =
      [] := by
  decide

/-- **C10.** A 200 episode-list probe containing no episode that is both
monitored and missing its file — in particular an empty list — makes the
fully-downloaded check return `True` vacuously, so Season-kind Smart
processing unmonitors the season (issues the `PUT`) even when the season
holds zero downloaded files. -/
theorem vacuous_complete_season_unmonitors (o : Oracle) (s : Series)
    (sn : Option Int) (st : St Unit) (fresp : HttpResp (List EpisodeFile))
    (eps : List Episode)
    (hfiles : o.filesResp s.id = .ok fresp)
    (hdel : ∀ f ∈ seasonFilesOf fresp sn, ∃ hr, o.delFileResp f.id = .ok hr)
    (hprobe : o.epsBySeasonResp s.id sn = .ok ⟨200, eps⟩)
    (hupd : seasonUpdated s sn = true)
    (hvac : ∀ ep ∈ eps, ep.monitored = true → ep.hasFile = true) :
    (isSeasonFullyDownloaded (oracleGw o) s.id sn st).1 = true ∧
    Call.putSeries s.id (flipSeason s sn) (o.putSeriesResp s.id) ∈
      (seasonKind 3 (oracleGw o) s sn st).2.tr := by
  have hall : eps.all (fun ep => !ep.monitored || ep.hasFile) = true := by
    rw [List.all_eq_true]
    intro ep hep
    cases hm : ep.monitored with
    | false => simp
    | true => simp [hvac ep hep hm]
  constructor
  · rw [isSeasonFullyDownloaded_oracle]
    dsimp only
    rw [hprobe]
    dsimp only
    rw [if_neg (by decide : ¬(200 : Nat) ≠ 200)]
    exact hall
  · rw [seasonKind3_oracle_eq o s sn st fresp eps hfiles hdel hprobe hupd,
      hall]
    simp

/-- Claim C10, witness: season 2 of `Show A` with zero files and an
empty episode list is still unmonitored by a Smart Season deletion. -/
theorem vacuous_complete_season_unmonitors_witness :
    (isSeasonFullyDownloaded (oracleGw oVacant) sShowA.id (some 2) ⟨(), []⟩).1 = true ∧
    Call.putSeries sShowA.id (flipSeason sShowA (some 2))
        (oVacant.putSeriesResp sShowA.id) ∈
      (seasonKind 3 (oracleGw oVacant) sShowA (some 2) ⟨(), []⟩).2.tr :=
  vacuous_complete_season_unmonitors oVacant sShowA (some 2) ⟨(), []⟩
    ⟨200, []⟩ [] rfl (fun f hf => ⟨⟨200, ()⟩, rfl⟩) rfl (by decide)
    (fun ep hep _ => absurd hep (by simp))

/-- **C3.** When the rebuild's initial series-list fetch fails (raised
exception or non-200 status), the whole rebuild aborts before
`conn.commit()`: the store keeps exactly its previously committed
contents — the in-transaction delete step is rolled back, nothing of the
prior snapshot (series, seasons, episodes, movies, episode map, status,
settings) is lost. -/
theorem rebuild_series_fetch_failure_keeps_store (clear : Bool)
    (src : RebuildSrc) (now : String) (db : Db)
    (hbad : rqFailed src.seriesResp = true) :
    buildProviderMap clear src now db = db := by
  unfold buildProviderMap
  cases hr : src.seriesResp with
  | error e => rfl
  | ok resp =>
    rw [hr] at hbad
    unfold rqFailed at hbad
    dsimp only
    rw [if_pos (by simpa using hbad)]

/-- Claim C3, witness: a raising series fetch leaves the prior committed
store `dbPrior` byte-for-byte intact, including under the clear-status
directive. -/
theorem rebuild_series_fetch_failure_keeps_store_witness :
    buildProviderMap true srcSeriesDown "2026-02-02" dbPrior = dbPrior :=
  rebuild_series_fetch_failure_keeps_store true srcSeriesDown "2026-02-02"
    dbPrior rfl

/-- A fold over `Except`-valued steps that each preserve a projection of
the store preserves it end to end. -/
theorem except_foldlM_preserves {α β : Type} (g : Db → β)
    (f : Db → α → Except Unit Db)
    (hf : ∀ d a d1, f d a = .ok d1 → g d1 = g d) (l : List α) :
    ∀ d d', l.foldlM f d = .ok d' → g d' = g d := by
  induction l with
  | nil =>
    intro d d' h
    rw [List.foldlM_nil] at h
    exact congrArg g (Except.ok.inj h).symm
  | cons a l ih =>
    intro d d' h
    rw [List.foldlM_cons] at h
    cases h1 : f d a with
    | error e =>
      rw [h1] at h
      exact Except.noConfusion (show (Except.error e : Except Unit Db) = .ok d' from h)
    | ok d1 =>
      rw [h1] at h
      have h2 : l.foldlM f d1 = .ok d' := h
      exact (ih d1 d' h2).trans (hf d a d1 h1)

/-- `INSERT INTO series` touches only the `series` table. -/
theorem insertSeriesRow_frame (d : Db) (r : SeriesRow) (d1 : Db)
    (h : insertSeriesRow d r = .ok d1) :
    d1.seriesStatus = d.seriesStatus ∧ d1.settings = d.settings ∧
      d1.episodeMap = d.episodeMap := by
  unfold insertSeriesRow at h
  split at h
  · exact Except.noConfusion h
  · cases h
    exact ⟨rfl, rfl, rfl⟩

/-- `INSERT INTO seasons` touches only the `seasons` table. -/
theorem insertSeasonRow_frame (d : Db) (r : SeasonRow) (d1 : Db)
    (h : insertSeasonRow d r = .ok d1) :
    d1.seriesStatus = d.seriesStatus ∧ d1.settings = d.settings ∧
      d1.episodeMap = d.episodeMap := by
  unfold insertSeasonRow at h
  split at h
  · exact Except.noConfusion h
  · cases h
    exact ⟨rfl, rfl, rfl⟩

/-- `INSERT INTO episodes` touches only the `episodes` table. -/
theorem insertEpisodeRow_frame (d : Db) (r : EpisodeRow) (d1 : Db)
    (h : insertEpisodeRow d r = .ok d1) :
    d1.seriesStatus = d.seriesStatus ∧ d1.settings = d.settings ∧
      d1.episodeMap = d.episodeMap := by
  unfold insertEpisodeRow at h
  split at h
  · exact Except.noConfusion h
  · cases h
    exact ⟨rfl, rfl, rfl⟩

/-- `INSERT INTO movies` touches only the `movies` table. -/
theorem insertMovieRow_frame (d : Db) (r : MovieRow) (d1 : Db)
    (h : insertMovieRow d r = .ok d1) :
    d1.seriesStatus = d.seriesStatus ∧ d1.settings = d.settings ∧
      d1.episodeMap = d.episodeMap := by
  unfold insertMovieRow at h
  split at h
  · exact Except.noConfusion h
  · cases h
    exact ⟨rfl, rfl, rfl⟩

/-- One step of the episode pass never touches `series_status` or
`settings`. -/
theorem episodeStep_frame (sid : Nat) (d : Db) (ep : Episode) (d' : Db)
    (h : (do
        let d ← insertEpisodeRow d
          ⟨ep.id, sid, ep.seasonNumber, ep.episodeNumber, ep.tvdbId, none, ep.imdbId⟩
        match truthy ep.tvdbId with
        | some t => pure { d with episodeMap := insertOrIgnoreMap d.episodeMap t sid }
        | none => (pure d : Except Unit Db)) = .ok d') :
    d'.seriesStatus = d.seriesStatus ∧ d'.settings = d.settings := by
  cases h1 : insertEpisodeRow d
      ⟨ep.id, sid, ep.seasonNumber, ep.episodeNumber, ep.tvdbId, none, ep.imdbId⟩ with
  | error e =>
    rw [h1] at h
    exact Except.noConfusion (show (Except.error e : Except Unit Db) = .ok d' from h)
  | ok d1 =>
    rw [h1] at h
    have hf1 := insertEpisodeRow_frame d _ d1 h1
    cases ht : truthy ep.tvdbId with
    | some t =>
      rw [ht] at h
      have h2 : ({ d1 with episodeMap := insertOrIgnoreMap d1.episodeMap t sid } : Db) = d' :=
        Except.ok.inj h
      subst h2
      exact ⟨hf1.1, hf1.2.1⟩
    | none =>
      rw [ht] at h
      have h2 : d1 = d' := Except.ok.inj h
      subst h2
      exact ⟨hf1.1, hf1.2.1⟩

/-- The per-series episode pass never touches `series_status` or
`settings`. -/
theorem insertEpisodesFor_frame (src : RebuildSrc) (sid : Nat) (d d' : Db)
    (h : insertEpisodesFor src sid d = .ok d') :
    d'.seriesStatus = d.seriesStatus ∧ d'.settings = d.settings := by
  unfold insertEpisodesFor at h
  cases hr : src.epsResp sid with
  | error e =>
    rw [hr] at h
    exact Except.noConfusion h
  | ok resp =>
    rw [hr] at h
    dsimp only at h
    split at h
    · have := except_foldlM_preserves (fun d => (d.seriesStatus, d.settings)) _
        (fun d ep d1 hstep => by
          have hh := episodeStep_frame sid d ep d1 hstep
          dsimp only
          rw [hh.1, hh.2]) resp.body d d' h
      dsimp only at this
      exact Prod.mk.inj this
    · have h2 : d = d' := Except.ok.inj h
      subst h2
      exact ⟨rfl, rfl⟩

/-- The whole per-series pass never touches `series_status` or
`settings`. -/
theorem insertSeriesData_frame (src : RebuildSrc) (d : Db) (ser : Series)
    (d' : Db) (h : insertSeriesData src d ser = .ok d') :
    d'.seriesStatus = d.seriesStatus ∧ d'.settings = d.settings := by
  unfold insertSeriesData at h
  cases h1 : insertSeriesRow d ⟨ser.id, ser.title, ser.tvdbId, none, ser.imdbId⟩ with
  | error e =>
    rw [h1] at h
    exact Except.noConfusion (show (Except.error e : Except Unit Db) = .ok d' from h)
  | ok d1 =>
    rw [h1] at h
    have hf1 := insertSeriesRow_frame d _ d1 h1
    have h'' : (ser.seasons.foldlM (fun d se =>
        insertSeasonRow d ⟨ser.id, se.seasonNumber, none, none, none⟩) d1 >>=
          fun d => insertEpisodesFor src ser.id d) = .ok d' := h
    cases h2 : ser.seasons.foldlM (fun d se =>
        insertSeasonRow d ⟨ser.id, se.seasonNumber, none, none, none⟩) d1 with
    | error e =>
      rw [h2] at h''
      exact Except.noConfusion (show (Except.error e : Except Unit Db) = .ok d' from h'')
    | ok d2 =>
      rw [h2] at h''
      have h3 : insertEpisodesFor src ser.id d2 = .ok d' := h''
      have hf2 := except_foldlM_preserves (fun d => (d.seriesStatus, d.settings))
        (fun d se => insertSeasonRow d ⟨ser.id, se.seasonNumber, none, none, none⟩)
        (fun d se d1 hstep => by
          have hh := insertSeasonRow_frame d _ d1 hstep
          dsimp only
          rw [hh.1, hh.2.1]) ser.seasons d1 d2 h2
      dsimp only at hf2
      have hf3 := insertEpisodesFor_frame src ser.id d2 d' h3
      have ha := (Prod.mk.inj hf2).1
      have hb := (Prod.mk.inj hf2).2
      refine ⟨?_, ?_⟩
      · rw [hf3.1, ha, hf1.1]
      · rw [hf3.2, hb, hf1.2.1]

/-- A rebuild either aborts (store unchanged), commits without the
summary setting (movie fetch non-200), or commits with `last_refresh`
upserted; in the committed cases the completion-status table is exactly
the draft's and the other settings rows are the prior ones. -/
theorem buildProviderMap_cases (clear : Bool) (src : RebuildSrc)
    (now : String) (db : Db) :
    buildProviderMap clear src now db = db ∨
    ((buildProviderMap clear src now db).seriesStatus =
        (draftDb clear db).seriesStatus ∧
     (buildProviderMap clear src now db).settings = db.settings) ∨
    ((buildProviderMap clear src now db).seriesStatus =
        (draftDb clear db).seriesStatus ∧
     (buildProviderMap clear src now db).settings =
        upsertSetting db.settings "last_refresh" now) := by
  unfold buildProviderMap
  cases hr : src.seriesResp with
  | error e => exact Or.inl rfl
  | ok resp =>
    dsimp only
    by_cases hst : resp.status ≠ 200
    · rw [if_pos hst]
      exact Or.inl rfl
    · rw [if_neg hst]
      cases h1 : resp.body.foldlM (insertSeriesData src) (draftDb clear db) with
      | error e => exact Or.inl rfl
      | ok d1 =>
        have hf1 := except_foldlM_preserves (fun d => (d.seriesStatus, d.settings))
          (insertSeriesData src)
          (fun d ser d2 hstep => by
            have hh := insertSeriesData_frame src d ser d2 hstep
            dsimp only
            rw [hh.1, hh.2]) resp.body (draftDb clear db) d1 h1
        dsimp only at hf1
        have hs1 : d1.seriesStatus = (draftDb clear db).seriesStatus :=
          (Prod.mk.inj hf1).1
        have hset1 : d1.settings = db.settings :=
          (Prod.mk.inj hf1).2
        cases hm : src.moviesResp with
        | error e => exact Or.inl rfl
        | ok mresp =>
          dsimp only
          by_cases hms : mresp.status ≠ 200
          · rw [if_pos hms]
            exact Or.inr (Or.inl ⟨hs1, hset1⟩)
          · rw [if_neg hms]
            cases h2 : mresp.body.foldlM
                (fun d m => insertMovieRow d ⟨m.id, m.title, m.tmdbId, m.imdbId⟩) d1 with
            | error e => exact Or.inl rfl
            | ok d2 =>
              have hf2 := except_foldlM_preserves
                (fun d => (d.seriesStatus, d.settings))
                (fun d m => insertMovieRow d ⟨m.id, m.title, m.tmdbId, m.imdbId⟩)
                (fun d m d3 hstep => by
                  have hh := insertMovieRow_frame d _ d3 hstep
                  dsimp only
                  rw [hh.1, hh.2.1]) mresp.body d1 d2 h2
              dsimp only at hf2
              have ha := (Prod.mk.inj hf2).1
              have hb := (Prod.mk.inj hf2).2
              refine Or.inr (Or.inr ⟨?_, ?_⟩)
              · dsimp only
                rw [ha, hs1]
              · dsimp only
                rw [hb, hset1]

/-- `INSERT OR REPLACE INTO settings` keeps every pre-existing row,
changing at most the value of the upserted key. -/
theorem mem_upsertSetting (m : List (String × String)) (k0 v0 k v : String)
    (h : (k, v) ∈ m) :
    ∃ v2, (k, v2) ∈ upsertSetting m k0 v0 ∧ (k ≠ k0 → v2 = v) := by
  unfold upsertSetting
  split
  · by_cases hk : k = k0
    · subst hk
      refine ⟨v0, ?_, fun hne => absurd rfl hne⟩
      exact List.mem_map.mpr ⟨(k, v), h, by simp⟩
    · refine ⟨v, ?_, fun _ => rfl⟩
      exact List.mem_map.mpr ⟨(k, v), h, by simp [hk]⟩
  · exact ⟨v, List.mem_append_left _ h, fun _ => rfl⟩

/-- **C8.** Frame of the rebuild: without the clear-status directive the
`series_status` table comes out exactly as it went in (on abort and on
commit alike); with the directive, a rebuild either leaves the store
untouched (abort) or leaves `series_status` empty; and every settings
row present before is present after, with its value unchanged unless its
key is the rebuild's own `last_refresh` bookkeeping entry. -/
theorem rebuild_preserves_status_and_settings (clear : Bool)
    (src : RebuildSrc) (now : String) (db : Db) :
    ((buildProviderMap false src now db).seriesStatus = db.seriesStatus) ∧
    ((buildProviderMap true src now db).seriesStatus = [] ∨
       buildProviderMap true src now db = db) ∧
    (∀ k v, (k, v) ∈ db.settings →
       ∃ v2, (k, v2) ∈ (buildProviderMap clear src now db).settings ∧
         (k ≠ "last_refresh" → v2 = v)) := by
  refine ⟨?_, ?_, ?_⟩
  · rcases buildProviderMap_cases false src now db with h | h | h
    · rw [h]
    · rw [h.1]
      simp [draftDb]
    · rw [h.1]
      simp [draftDb]
  · rcases buildProviderMap_cases true src now db with h | h | h
    · exact Or.inr h
    · exact Or.inl (by rw [h.1]; simp [draftDb])
    · exact Or.inl (by rw [h.1]; simp [draftDb])
  · intro k v hkv
    rcases buildProviderMap_cases clear src now db with h | h | h
    · exact ⟨v, by rw [h]; exact hkv, fun _ => rfl⟩
    · exact ⟨v, by rw [h.2]; exact hkv, fun _ => rfl⟩
    · rw [h.2]
      exact mem_upsertSetting db.settings "last_refresh" now k v hkv

/-- Lookup after one `INSERT OR IGNORE`: an existing row shadows the new
write; otherwise the new key becomes visible. -/
theorem lookup_insertOrIgnore (m : List (String × Nat)) (a : String) (b : Nat)
    (k : String) :
    lookupMap (insertOrIgnoreMap m a b) k =
      match lookupMap m k with
      | some v => some v
      | none => if k = a then some b else none := by
  unfold insertOrIgnoreMap lookupMap
  split
  · next hany =>
    cases hf : m.find? (fun p => p.1 = k) with
    | some p => rfl
    | none =>
      by_cases hk : k = a
      · subst hk
        rw [List.any_eq_true] at hany
        rcases hany with ⟨p, hp, hpk⟩
        have hnone := List.find?_eq_none.mp hf p hp
        exact absurd hpk hnone
      · exact (if_neg hk).symm
  · next hany =>
    rw [List.find?_append]
    cases hf : m.find? (fun p => p.1 = k) with
    | some p => rfl
    | none =>
      by_cases hk : k = a
      · subst hk
        simp
      · simp [hk, Ne.symm hk]

/-- Lookup after a sequence of `INSERT OR IGNORE` writes: an existing
row still shadows everything; otherwise the FIRST write of the key is
the one visible. -/
theorem lookup_foldl_insertOrIgnore (ws : List (String × Nat)) :
    ∀ (m : List (String × Nat)) (k : String),
      lookupMap (ws.foldl (fun m w => insertOrIgnoreMap m w.1 w.2) m) k =
        match lookupMap m k with
        | some v => some v
        | none => (ws.find? (fun p => p.1 = k)).map (fun p => p.2) := by
  induction ws with
  | nil =>
    intro m k
    rw [List.foldl_nil]
    cases hm : lookupMap m k <;> rfl
  | cons w ws ih =>
    intro m k
    rw [List.foldl_cons, ih (insertOrIgnoreMap m w.1 w.2) k,
      lookup_insertOrIgnore]
    cases hm : lookupMap m k with
    | some v => rfl
    | none =>
      dsimp only
      by_cases hk : k = w.1
      · rw [if_pos hk]
        subst hk
        simp
      · rw [if_neg hk]
        rw [List.find?_cons_of_neg]
        exact fun hcontra => (Ne.symm hk) (of_decide_eq_true hcontra)

/-- A sequence of `INSERT OR IGNORE` writes keeps the map's keys free of
duplicates. -/
theorem nodup_foldl_insertOrIgnore (ws : List (String × Nat)) :
    ∀ m : List (String × Nat), (m.map Prod.fst).Nodup →
      ((ws.foldl (fun m w => insertOrIgnoreMap m w.1 w.2) m).map Prod.fst).Nodup := by
  induction ws with
  | nil => exact fun m hm => hm
  | cons w ws ih =>
    intro m hm
    rw [List.foldl_cons]
    apply ih
    unfold insertOrIgnoreMap
    split
    · exact hm
    · next hany =>
      rw [List.map_append]
      refine hm.append (List.nodup_singleton _) ?_
      intro x hx hx2
      simp at hx2
      rcases List.mem_map.mp hx with ⟨p, hp, hpa⟩
      apply hany
      rw [List.any_eq_true]
      refine ⟨p, hp, ?_⟩
      simp [hpa, hx2]

/-- Episode-map evolution of the per-season episode insert loop: exactly
the `INSERT OR IGNORE` writes of the episodes with a truthy TVDB id, in
list order. -/
theorem episodes_fold_map (sid : Nat) (body : List Episode) :
    ∀ (d d' : Db),
      body.foldlM (fun d ep => do
        let d ← insertEpisodeRow d
          ⟨ep.id, sid, ep.seasonNumber, ep.episodeNumber, ep.tvdbId, none, ep.imdbId⟩
        match truthy ep.tvdbId with
        | some t => pure { d with episodeMap := insertOrIgnoreMap d.episodeMap t sid }
        | none => (pure d : Except Unit Db)) d = .ok d' →
      d'.episodeMap =
        (body.filterMap (fun ep => (truthy ep.tvdbId).map (fun t => (t, sid)))).foldl
          (fun m w => insertOrIgnoreMap m w.1 w.2) d.episodeMap := by
  induction body with
  | nil =>
    intro d d' h
    rw [List.foldlM_nil] at h
    rw [← Except.ok.inj h]
    rfl
  | cons ep body ih =>
    intro d d' h
    rw [List.foldlM_cons] at h
    cases h1 : insertEpisodeRow d
        ⟨ep.id, sid, ep.seasonNumber, ep.episodeNumber, ep.tvdbId, none, ep.imdbId⟩ with
    | error e =>
      rw [h1] at h
      exact Except.noConfusion (show (Except.error e : Except Unit Db) = .ok d' from h)
    | ok d1 =>
      rw [h1] at h
      have hf1 := insertEpisodeRow_frame d _ d1 h1
      cases ht : truthy ep.tvdbId with
      | some t =>
        rw [ht] at h
        have hrec := ih ({ d1 with
          episodeMap := insertOrIgnoreMap d1.episodeMap t sid }) d' h
        rw [hrec]
        simp [List.filterMap_cons, ht, hf1.2.2]
      | none =>
        rw [ht] at h
        have hrec := ih d1 d' h
        rw [hrec]
        simp [List.filterMap_cons, ht, hf1.2.2]

/-- Episode-map evolution of `insertEpisodesFor`: the writes of this
series' fetched episode list (none when the fetch answered non-200). -/
theorem insertEpisodesFor_map (src : RebuildSrc) (sid : Nat) (d d' : Db)
    (h : insertEpisodesFor src sid d = .ok d') :
    d'.episodeMap = (match src.epsResp sid with
      | .ok resp =>
        if resp.status = 200 then
          resp.body.filterMap
            (fun ep : Episode => (truthy ep.tvdbId).map (fun t => (t, sid)))
        else []
      | .error _ => ([] : List (String × Nat))).foldl
        (fun m (w : String × Nat) => insertOrIgnoreMap m w.1 w.2) d.episodeMap := by
  unfold insertEpisodesFor at h
  cases hr : src.epsResp sid with
  | error e =>
    rw [hr] at h
    exact Except.noConfusion h
  | ok resp =>
    rw [hr] at h
    dsimp only at h
    dsimp only
    split at h
    · next hst =>
      rw [if_pos hst]
      exact episodes_fold_map sid resp.body d d' h
    · next hst =>
      rw [if_neg hst]
      have h2 : d = d' := Except.ok.inj h
      subst h2
      rfl

/-- Episode-map evolution of the whole per-series pass. -/
theorem insertSeriesData_map (src : RebuildSrc) (d : Db) (ser : Series)
    (d' : Db) (h : insertSeriesData src d ser = .ok d') :
    d'.episodeMap = (match src.epsResp ser.id with
      | .ok resp =>
        if resp.status = 200 then
          resp.body.filterMap
            (fun ep : Episode => (truthy ep.tvdbId).map (fun t => (t, ser.id)))
        else []
      | .error _ => ([] : List (String × Nat))).foldl
        (fun m (w : String × Nat) => insertOrIgnoreMap m w.1 w.2) d.episodeMap := by
  unfold insertSeriesData at h
  cases h1 : insertSeriesRow d ⟨ser.id, ser.title, ser.tvdbId, none, ser.imdbId⟩ with
  | error e =>
    rw [h1] at h
    exact Except.noConfusion (show (Except.error e : Except Unit Db) = .ok d' from h)
  | ok d1 =>
    rw [h1] at h
    have hf1 := insertSeriesRow_frame d _ d1 h1
    have h'' : (ser.seasons.foldlM (fun d se =>
        insertSeasonRow d ⟨ser.id, se.seasonNumber, none, none, none⟩) d1 >>=
          fun d => insertEpisodesFor src ser.id d) = .ok d' := h
    cases h2 : ser.seasons.foldlM (fun d se =>
        insertSeasonRow d ⟨ser.id, se.seasonNumber, none, none, none⟩) d1 with
    | error e =>
      rw [h2] at h''
      exact Except.noConfusion (show (Except.error e : Except Unit Db) = .ok d' from h'')
    | ok d2 =>
      rw [h2] at h''
      have h3 : insertEpisodesFor src ser.id d2 = .ok d' := h''
      have hf2 := except_foldlM_preserves (fun d => d.episodeMap)
        (fun d se => insertSeasonRow d ⟨ser.id, se.seasonNumber, none, none, none⟩)
        (fun d se d1 hstep => by
          have hh := insertSeasonRow_frame d _ d1 hstep
          dsimp only
          rw [hh.2.2]) ser.seasons d1 d2 h2
      dsimp only at hf2
      rw [insertEpisodesFor_map src ser.id d2 d' h3, hf2, hf1.2.2]

/-- Episode-map evolution of the series fold: the concatenated writes of
`mapWrites`, in source order. -/
theorem series_fold_map (src : RebuildSrc) (sl : List Series) :
    ∀ d d', sl.foldlM (insertSeriesData src) d = .ok d' →
      d'.episodeMap = (mapWrites src sl).foldl
        (fun m w => insertOrIgnoreMap m w.1 w.2) d.episodeMap := by
  induction sl with
  | nil =>
    intro d d' h
    rw [List.foldlM_nil] at h
    rw [← Except.ok.inj h]
    rfl
  | cons ser sl ih =>
    intro d d' h
    rw [List.foldlM_cons] at h
    cases h1 : insertSeriesData src d ser with
    | error e =>
      rw [h1] at h
      exact Except.noConfusion (show (Except.error e : Except Unit Db) = .ok d' from h)
    | ok d1 =>
      rw [h1] at h
      have hrec := ih d1 d' h
      rw [hrec, insertSeriesData_map src d ser d1 h1]
      rw [show mapWrites src (ser :: sl) = (match src.epsResp ser.id with
          | .ok resp =>
            if resp.status = 200 then
              resp.body.filterMap
                (fun ep : Episode => (truthy ep.tvdbId).map (fun t => (t, ser.id)))
            else []
          | .error _ => ([] : List (String × Nat))) ++ mapWrites src sl from by
        unfold mapWrites
        rw [List.flatMap_cons]]
      rw [List.foldl_append]

/-- Claim C2, counterexample.  TVDB id `100` is written twice during the
pass — first for series 1, then for series 2 — but after the rebuild the
Episode Map holds the FIRST write `("100", 1)`, not the later series 2:
line 326 is `INSERT OR IGNORE`, whose conflict behavior keeps the
existing row, so the stated last-write-wins semantics is false. -/
theorem episode_map_last_write_cex :
    mapWrites srcDupTvdb slDup = [("100", 1), ("100", 2)] ∧
    (buildProviderMap true srcDupTvdb "now" dbPrior).episodeMap = [("100", 1)] ∧
    lookupMap (buildProviderMap true srcDupTvdb "now" dbPrior).episodeMap "100" ≠
      some 2 := by
  decide

/-- **C2.** (amended) During a rebuild, for every episode carrying a
provider identifier an Episode Map entry `(provider id → series id)` is
written with `INSERT OR IGNORE`, i.e. FIRST-write-wins semantics: when
the series pass succeeds, looking any external id up in the resulting
map yields the series id of the first write of that id in source order
(and an id never written is absent); every external identifier still
maps to at most one series. -/
theorem episode_map_first_write_wins (clear : Bool) (src : RebuildSrc)
    (now : String) (db : Db) (sl : List Series) (d1 : Db)
    (hs : src.seriesResp = .ok ⟨200, sl⟩)
    (hfold : sl.foldlM (insertSeriesData src) (draftDb clear db) = .ok d1) :
    (buildProviderMap clear src now db = db ∨
       (buildProviderMap clear src now db).episodeMap = d1.episodeMap) ∧
    (∀ k, lookupMap d1.episodeMap k =
       ((mapWrites src sl).find? (fun p => p.1 = k)).map (fun p => p.2)) ∧
    (d1.episodeMap.map Prod.fst).Nodup := by
  have hmap : d1.episodeMap = (mapWrites src sl).foldl
      (fun m w => insertOrIgnoreMap m w.1 w.2) [] := by
    have hsf := series_fold_map src sl (draftDb clear db) d1 hfold
    rw [hsf]
    rfl
  refine ⟨?_, ?_, ?_⟩
  · unfold buildProviderMap
    rw [hs]
    dsimp only
    rw [if_neg (by decide : ¬(200 : Nat) ≠ 200), hfold]
    cases hm : src.moviesResp with
    | error e => exact Or.inl rfl
    | ok mresp =>
      dsimp only
      by_cases hms : mresp.status ≠ 200
      · rw [if_pos hms]
        exact Or.inr rfl
      · rw [if_neg hms]
        cases h2 : mresp.body.foldlM
            (fun d m => insertMovieRow d ⟨m.id, m.title, m.tmdbId, m.imdbId⟩) d1 with
        | error e => exact Or.inl rfl
        | ok d2 =>
          have hf2 := except_foldlM_preserves (fun d => d.episodeMap)
            (fun d m => insertMovieRow d ⟨m.id, m.title, m.tmdbId, m.imdbId⟩)
            (fun d m d3 hstep => by
              have hh := insertMovieRow_frame d _ d3 hstep
              dsimp only
              rw [hh.2.2]) mresp.body d1 d2 h2
          dsimp only at hf2
          exact Or.inr hf2
  · intro k
    rw [hmap, lookup_foldl_insertOrIgnore]
    rfl
  · rw [hmap]
    exact nodup_foldl_insertOrIgnore (mapWrites src sl) [] (by simp)

/-- Claim C2, witness: the amended theorem applied at the
duplicate-TVDB-id scenario, whose map keeps `("100", 1)`. -/
theorem episode_map_first_write_wins_witness :
    (buildProviderMap true srcDupTvdb "now" dbPrior = dbPrior ∨
       (buildProviderMap true srcDupTvdb "now" dbPrior).episodeMap =
         d1Dup.episodeMap) ∧
    (∀ k, lookupMap d1Dup.episodeMap k =
       ((mapWrites srcDupTvdb slDup).find? (fun p => p.1 = k)).map
         (fun p => p.2)) ∧
    (d1Dup.episodeMap.map Prod.fst).Nodup :=
  episode_map_first_write_wins true srcDupTvdb "now" dbPrior slDup d1Dup
    rfl (by decide)
